import Mathlib

/-!
# ImpactX driver: initGrids and evolve

A shallow embedding of `src/ImpactX.cpp` (`ImpactX::initGrids`, `ImpactX::evolve`).

The driver only sequences calls to collaborators that live outside the file
(particle container, mesh hierarchy, coordinate transformation, element push,
diagnostic writer, filesystem).  The collaborators are a parameter of the
embedding (`Collab`): each one is a function on an abstract collaborator state
`σ`.  The driver object carries that state, its lattice and a log of every
collaborator call it has made, each call paired with the state it was invoked
on.

Not represented: console logging (`amrex::Print`) and profiler scopes
(`BL_PROFILE`), which do not touch the driver or its collaborators, and the
read-only query `TotalNumberOfParticles`, which is a function of the state and
is not logged as a call.
-/

namespace impactx

/-! ## Data model -/

/-- Output selector passed to `diagnostics::DiagnosticOutput`. -/
inductive OutputType where
  | PrintParticles
  | PrintRefParticle
  | PrintNonlinearLensInvariants
  deriving DecidableEq, Repr

/-- Direction passed to `transformation::CoordinateTransformation`. -/
inductive Direction where
  | T2Z
  | Z2T
  deriving DecidableEq, Repr

/-- Collaborator calls made by the driver, with the arguments the driver chooses.
`InitFromScratch` is always called with time `0.0`, which is not recorded. -/
inductive Call (ε : Type) where
  | SetParticleShape
  | InitFromScratch
  | UtilCreateCleanDirectory (path : String) (callbarrier : Bool)
  | DiagnosticOutput (otype : OutputType) (file_name : String)
  | CoordinateTransformation (direction : Direction)
  | ResizeMesh
  | Redistribute
  | DepositCharge
  | Push (element_variant : ε)
  deriving DecidableEq, Repr

/-- The collaborators of the driver as functions on the collaborator state `σ`
(particle container, mesh hierarchy, charge density, output directory).
`SetParticleShape` may throw; the others are taken to return normally. -/
structure Collab (σ ε : Type) where
  SetParticleShape : σ → Except String σ
  InitFromScratch : σ → σ
  UtilCreateCleanDirectory : String → Bool → σ → σ
  DiagnosticOutput : OutputType → String → σ → σ
  CoordinateTransformation : Direction → σ → σ
  TotalNumberOfParticles : σ → Int
  ResizeMesh : σ → σ
  Redistribute : σ → σ
  DepositCharge : σ → σ
  Push : ε → σ → σ

/-- The driver object: its lattice `m_lattice`, the state of its collaborators,
and the log of collaborator calls made so far (oldest first), each with the
state it was invoked on. -/
structure ImpactX (σ ε : Type) where
  m_lattice : List ε
  state : σ
  log : List (Call ε × σ)

variable {σ ε : Type}

/-- Make one collaborator call: log it with the current state, then apply its effect. -/
def ImpactX.invoke (w : ImpactX σ ε) (k : Call ε) (f : σ → σ) : ImpactX σ ε :=
  { w with state := f w.state, log := w.log ++ [(k, w.state)] }

/-! ## The driver, from the source -/

/-- `ImpactX::initGrids`: set the particle shape, build the grids from scratch,
create a clean `diags` directory.  If `SetParticleShape` throws, the exception
leaves `initGrids` at once; the error result carries the message and the driver
as it was left. -/
def initGrids (c : Collab σ ε) (w : ImpactX σ ε) :
    Except (String × ImpactX σ ε) (ImpactX σ ε) :=
  let w1 : ImpactX σ ε := { w with log := w.log ++ [(Call.SetParticleShape, w.state)] }
  match c.SetParticleShape w.state with
  | Except.error msg => Except.error (msg, w1)
  | Except.ok s =>
    let w2 : ImpactX σ ε := { w1 with state := s }
    let w3 := w2.invoke Call.InitFromScratch c.InitFromScratch
    Except.ok (w3.invoke (Call.UtilCreateCleanDirectory "diags" true)
      (c.UtilCreateCleanDirectory "diags" true))

/-- Body of the sub-step loop of `ImpactX::evolve` for one element. -/
def subStep (c : Collab σ ε) (element_variant : ε) (w : ImpactX σ ε) : ImpactX σ ε :=
  -- transform from x',y',t to x,y,z
  let w := w.invoke (Call.CoordinateTransformation Direction.T2Z)
    (c.CoordinateTransformation Direction.T2Z)
  -- Space-charge calculation: turn off if there is only 1 particle
  let w :=
    if c.TotalNumberOfParticles w.state > 1 then
      let w := w.invoke Call.ResizeMesh c.ResizeMesh
      let w := w.invoke Call.Redistribute c.Redistribute
      w.invoke Call.DepositCharge c.DepositCharge
    else w
  -- transform from x,y,z to x',y',t
  let w := w.invoke (Call.CoordinateTransformation Direction.Z2T)
    (c.CoordinateTransformation Direction.Z2T)
  -- push all particles with external maps
  w.invoke (Call.Push element_variant) (c.Push element_variant)

/-- The loop `for (int step = 0; step < num_steps; ++step)`, by the number of
iterations that remain. -/
def stepLoop (c : Collab σ ε) (element_variant : ε) : Nat → ImpactX σ ε → ImpactX σ ε
  | 0, w => w
  | k + 1, w => stepLoop c element_variant k (subStep c element_variant w)

/-- The loop `for (auto & element_variant : m_lattice)`.  The inner loop runs
`num_steps` times when `num_steps` is positive and not at all otherwise. -/
def elementLoop (c : Collab σ ε) (num_steps : Int) : List ε → ImpactX σ ε → ImpactX σ ε
  | [], w => w
  | element_variant :: rest, w =>
    elementLoop c num_steps rest (stepLoop c element_variant num_steps.toNat w)

/-- `ImpactX::evolve (int num_steps)`. -/
def evolve (c : Collab σ ε) (num_steps : Int) (w : ImpactX σ ε) : ImpactX σ ε :=
  -- print initial particle distribution to file
  let w := w.invoke (Call.DiagnosticOutput OutputType.PrintParticles "diags/initial_beam.txt")
    (c.DiagnosticOutput OutputType.PrintParticles "diags/initial_beam.txt")
  -- print initial reference particle to file
  let w := w.invoke
    (Call.DiagnosticOutput OutputType.PrintRefParticle "diags/initial_ref_particle.txt")
    (c.DiagnosticOutput OutputType.PrintRefParticle "diags/initial_ref_particle.txt")
  -- print the initial values of the two invariants H and I
  let w := w.invoke
    (Call.DiagnosticOutput OutputType.PrintNonlinearLensInvariants
      "diags/initial_nonlinear_lens_invariants.txt")
    (c.DiagnosticOutput OutputType.PrintNonlinearLensInvariants
      "diags/initial_nonlinear_lens_invariants.txt")
  -- loop over all beamline elements
  let w := elementLoop c num_steps w.m_lattice w
  -- print final particle distribution to file
  let w := w.invoke (Call.DiagnosticOutput OutputType.PrintParticles "diags/output_beam.txt")
    (c.DiagnosticOutput OutputType.PrintParticles "diags/output_beam.txt")
  -- print final reference particle to file
  let w := w.invoke
    (Call.DiagnosticOutput OutputType.PrintRefParticle "diags/output_ref_particle.txt")
    (c.DiagnosticOutput OutputType.PrintRefParticle "diags/output_ref_particle.txt")
  -- print the final values of the two invariants H and I
  w.invoke
    (Call.DiagnosticOutput OutputType.PrintNonlinearLensInvariants
      "diags/output_nonlinear_lens_invariants.txt")
    (c.DiagnosticOutput OutputType.PrintNonlinearLensInvariants
      "diags/output_nonlinear_lens_invariants.txt")

/-! ## What one call of the driver adds to the log -/

/-- The entries `evolve` adds to the log: the collaborator calls made by one call
of `evolve`, in order, each with the state it was invoked on. -/
def evolveLog (c : Collab σ ε) (num_steps : Int) (w : ImpactX σ ε) : List (Call ε × σ) :=
  (evolve c num_steps w).log.drop w.log.length

/-- The collaborator calls made by one call of `evolve`, in order. -/
def evolveCalls (c : Collab σ ε) (num_steps : Int) (w : ImpactX σ ε) : List (Call ε) :=
  (evolveLog c num_steps w).map Prod.fst

/-- The collaborator calls made by one sub-step, in order. -/
def subStepCalls (c : Collab σ ε) (element_variant : ε) (w : ImpactX σ ε) : List (Call ε) :=
  ((subStep c element_variant w).log.drop w.log.length).map Prod.fst

/-- The traversal part of `evolve`: the element loop, entered after the three
initial diagnostic writes, with an empty log of its own. -/
def traversal (c : Collab σ ε) (num_steps : Int) (w : ImpactX σ ε) : ImpactX σ ε :=
  elementLoop c num_steps w.m_lattice
    { m_lattice := w.m_lattice,
      state :=
        c.DiagnosticOutput OutputType.PrintNonlinearLensInvariants
          "diags/initial_nonlinear_lens_invariants.txt"
          (c.DiagnosticOutput OutputType.PrintRefParticle "diags/initial_ref_particle.txt"
            (c.DiagnosticOutput OutputType.PrintParticles "diags/initial_beam.txt" w.state)),
      log := [] }

/-- A caller that invokes `initGrids` `k` times in a row on the same driver, going
on with the driver each call leaves behind; returns, per call, whether it
succeeded, and the driver at the end. -/
def initGridsAgain (c : Collab σ ε) : Nat → ImpactX σ ε → List Bool × ImpactX σ ε
  | 0, w => ([], w)
  | k + 1, w =>
    match initGrids c w with
    | Except.ok w1 => (true :: (initGridsAgain c k w1).1, (initGridsAgain c k w1).2)
    | Except.error (_, w1) => (false :: (initGridsAgain c k w1).1, (initGridsAgain c k w1).2)

/-! ## The call sequence as the specification words it

The `spec...` definitions below are written from the specification, to be compared
with the driver above. -/

/-- The order in which sub-steps visit the elements: each element of the
lattice, in lattice order, `n` times in a row. -/
def specSchedule (lattice : List ε) (n : Nat) : List ε :=
  lattice.flatMap (fun e => List.replicate n e)

/-- The three diagnostic writes with the given file names, starting from state `s`. -/
def specDiag (c : Collab σ ε) (beam ref inv : String) (s : σ) : List (Call ε × σ) :=
  let s1 := c.DiagnosticOutput OutputType.PrintParticles beam s
  let s2 := c.DiagnosticOutput OutputType.PrintRefParticle ref s1
  [(Call.DiagnosticOutput OutputType.PrintParticles beam, s),
   (Call.DiagnosticOutput OutputType.PrintRefParticle ref, s1),
   (Call.DiagnosticOutput OutputType.PrintNonlinearLensInvariants inv, s2)]

/-- State after the three diagnostic writes of `specDiag`. -/
def specDiagEnd (c : Collab σ ε) (beam ref inv : String) (s : σ) : σ :=
  c.DiagnosticOutput OutputType.PrintNonlinearLensInvariants inv
    (c.DiagnosticOutput OutputType.PrintRefParticle ref
      (c.DiagnosticOutput OutputType.PrintParticles beam s))

/-- The block of one sub-step for element `e` entered in state `s`: T2Z, then the
space-charge calls when the particle count after T2Z exceeds 1, then Z2T, then
the push of `e`. -/
def specBlock (c : Collab σ ε) (e : ε) (s : σ) : List (Call ε × σ) :=
  let s1 := c.CoordinateTransformation Direction.T2Z s
  if c.TotalNumberOfParticles s1 > 1 then
    let s2 := c.ResizeMesh s1
    let s3 := c.Redistribute s2
    let s4 := c.DepositCharge s3
    [(Call.CoordinateTransformation Direction.T2Z, s),
     (Call.ResizeMesh, s1), (Call.Redistribute, s2), (Call.DepositCharge, s3),
     (Call.CoordinateTransformation Direction.Z2T, s4),
     (Call.Push e, c.CoordinateTransformation Direction.Z2T s4)]
  else
    [(Call.CoordinateTransformation Direction.T2Z, s),
     (Call.CoordinateTransformation Direction.Z2T, s1),
     (Call.Push e, c.CoordinateTransformation Direction.Z2T s1)]

/-- State after the block of `specBlock`. -/
def specBlockEnd (c : Collab σ ε) (e : ε) (s : σ) : σ :=
  let s1 := c.CoordinateTransformation Direction.T2Z s
  let s2 :=
    if c.TotalNumberOfParticles s1 > 1 then
      c.DepositCharge (c.Redistribute (c.ResizeMesh s1))
    else s1
  c.Push e (c.CoordinateTransformation Direction.Z2T s2)

/-- The blocks of a whole schedule, one after the other, starting in state `s`. -/
def specTraversal (c : Collab σ ε) : List ε → σ → List (Call ε × σ)
  | [], _ => []
  | e :: es, s => specBlock c e s ++ specTraversal c es (specBlockEnd c e s)

/-- State after the blocks of a whole schedule. -/
def specTraversalEnd (c : Collab σ ε) : List ε → σ → σ
  | [], s => s
  | e :: es, s => specTraversalEnd c es (specBlockEnd c e s)

/-- State after the three initial diagnostic writes of `evolve`. -/
def specInitialEnd (c : Collab σ ε) (s : σ) : σ :=
  specDiagEnd c "diags/initial_beam.txt" "diags/initial_ref_particle.txt"
    "diags/initial_nonlinear_lens_invariants.txt" s

/-- The three initial diagnostic writes of `evolve`. -/
def specInitial (c : Collab σ ε) (s : σ) : List (Call ε × σ) :=
  specDiag c "diags/initial_beam.txt" "diags/initial_ref_particle.txt"
    "diags/initial_nonlinear_lens_invariants.txt" s

/-- The three final diagnostic writes of `evolve`. -/
def specFinal (c : Collab σ ε) (s : σ) : List (Call ε × σ) :=
  specDiag c "diags/output_beam.txt" "diags/output_ref_particle.txt"
    "diags/output_nonlinear_lens_invariants.txt" s

/-- State after the three final diagnostic writes of `evolve`. -/
def specFinalEnd (c : Collab σ ε) (s : σ) : σ :=
  specDiagEnd c "diags/output_beam.txt" "diags/output_ref_particle.txt"
    "diags/output_nonlinear_lens_invariants.txt" s

/-- The sub-step block with the space-charge calls. -/
def specCoupledBlock (e : ε) : List (Call ε) :=
  [Call.CoordinateTransformation Direction.T2Z, Call.ResizeMesh, Call.Redistribute,
   Call.DepositCharge, Call.CoordinateTransformation Direction.Z2T, Call.Push e]

/-- The sub-step block without the space-charge calls. -/
def specPlainBlock (e : ε) : List (Call ε) :=
  [Call.CoordinateTransformation Direction.T2Z,
   Call.CoordinateTransformation Direction.Z2T, Call.Push e]

/-! ## Kinds of calls -/

/-- A diagnostic write. -/
def Call.isDiagnostic : Call ε → Bool
  | Call.DiagnosticOutput _ _ => true
  | _ => false

/-- A coordinate transformation. -/
def Call.isTransform : Call ε → Bool
  | Call.CoordinateTransformation _ => true
  | _ => false

/-- The mesh resize of the space-charge path. -/
def Call.isResizeMesh : Call ε → Bool
  | Call.ResizeMesh => true
  | _ => false

/-- The particle redistribution of the space-charge path. -/
def Call.isRedistribute : Call ε → Bool
  | Call.Redistribute => true
  | _ => false

/-- The charge deposition of the space-charge path. -/
def Call.isDepositCharge : Call ε → Bool
  | Call.DepositCharge => true
  | _ => false

/-- Any call of the space-charge path. -/
def Call.isCoupling (k : Call ε) : Bool :=
  k.isResizeMesh || k.isRedistribute || k.isDepositCharge

/-- An element push. -/
def Call.isPush : Call ε → Bool
  | Call.Push _ => true
  | _ => false

/-- A transform, space-charge or push call. -/
def Call.isPhysics (k : Call ε) : Bool :=
  k.isTransform || k.isCoupling || k.isPush

/-- A call that only `initGrids` makes. -/
def Call.isInit : Call ε → Bool
  | Call.SetParticleShape => true
  | Call.InitFromScratch => true
  | Call.UtilCreateCleanDirectory _ _ => true
  | _ => false

/-- The file name of a diagnostic write. -/
def Call.fileName : Call ε → Option String
  | Call.DiagnosticOutput _ file_name => some file_name
  | _ => none

/-- Every collaborator that acts on the state leaves the particle count as it is. -/
def CountPreserved (c : Collab σ ε) : Prop :=
  (∀ o p s, c.TotalNumberOfParticles (c.DiagnosticOutput o p s) = c.TotalNumberOfParticles s)
  ∧ (∀ d s, c.TotalNumberOfParticles (c.CoordinateTransformation d s)
      = c.TotalNumberOfParticles s)
  ∧ (∀ s, c.TotalNumberOfParticles (c.ResizeMesh s) = c.TotalNumberOfParticles s)
  ∧ (∀ s, c.TotalNumberOfParticles (c.Redistribute s) = c.TotalNumberOfParticles s)
  ∧ (∀ s, c.TotalNumberOfParticles (c.DepositCharge s) = c.TotalNumberOfParticles s)
  ∧ (∀ e s, c.TotalNumberOfParticles (c.Push e s) = c.TotalNumberOfParticles s)

/-! ## Frame tag -/

/-- The two coordinate frames of the ensemble. -/
inductive Frame where
  | TRANSVERSE_TIME
  | SPATIAL
  deriving DecidableEq, Repr

/-- Modelled from the spec: the ensemble-wide frame tag kept by
`CoordinateTransformation`, which is not in the source file.  T2Z requires
TRANSVERSE_TIME and yields SPATIAL, Z2T requires SPATIAL and yields
TRANSVERSE_TIME, a transform from the wrong frame is an error (`none`), and
every other call leaves the tag as it is. -/
def frameStep : Frame → Call ε → Option Frame
  | Frame.TRANSVERSE_TIME, Call.CoordinateTransformation Direction.T2Z => some Frame.SPATIAL
  | Frame.SPATIAL, Call.CoordinateTransformation Direction.Z2T => some Frame.TRANSVERSE_TIME
  | _, Call.CoordinateTransformation _ => none
  | f, _ => some f

/-- Replay a call sequence from frame `f`: every call tagged with the frame it is
made in, and the frame at the end; `none` when a transform meets the wrong frame. -/
def frameTrace : Frame → List (Call ε) → Option (List (Call ε × Frame) × Frame)
  | f, [] => some ([], f)
  | f, k :: ks =>
    match frameStep f k with
    | none => none
    | some f1 =>
      match frameTrace f1 ks with
      | none => none
      | some (tagged, fEnd) => some ((k, f) :: tagged, fEnd)

/-- The frame the specification requires for each kind of call: transforms in
their source frame, space-charge calls in SPATIAL, pushes and diagnostic writes
in TRANSVERSE_TIME. -/
def frameOK : Call ε × Frame → Bool
  | (Call.CoordinateTransformation Direction.T2Z, f) => decide (f = Frame.TRANSVERSE_TIME)
  | (Call.CoordinateTransformation Direction.Z2T, f) => decide (f = Frame.SPATIAL)
  | (Call.ResizeMesh, f) => decide (f = Frame.SPATIAL)
  | (Call.Redistribute, f) => decide (f = Frame.SPATIAL)
  | (Call.DepositCharge, f) => decide (f = Frame.SPATIAL)
  | (Call.Push _, f) => decide (f = Frame.TRANSVERSE_TIME)
  | (Call.DiagnosticOutput _ _, f) => decide (f = Frame.TRANSVERSE_TIME)
  | _ => true

/-! ## Particle shape -/

/-- The particle-shape part of the particle container: the shape the user
configured (`algo.particle_shape`), if any, and the shape the container has
been given (`m_particle_shape`), if any. -/
structure ShapeConfig where
  algo_particle_shape : Option Int
  m_particle_shape : Option Int
  deriving DecidableEq, Repr

/-- Modelled from the spec: `ImpactXParticleContainer::SetParticleShape`, which is
not in the source file.  It fails when no particle shape has been configured and
when it is invoked more than once; otherwise it fixes the configured shape. -/
def SetParticleShape (cfg : ShapeConfig) : Except String ShapeConfig :=
  match cfg.m_particle_shape, cfg.algo_particle_shape with
  | some _, _ => Except.error "particle shape was already set and cannot be changed"
  | none, none => Except.error "particle_shape is not set"
  | none, some v => Except.ok { cfg with m_particle_shape := some v }

/-- Collaborators over a state that also holds the particle-shape part:
`SetParticleShape` is the modelled one, every other collaborator is taken from
`base` and leaves the particle-shape part alone. -/
def withShape (base : Collab σ ε) : Collab (ShapeConfig × σ) ε where
  SetParticleShape := fun x =>
    match SetParticleShape x.1 with
    | Except.error msg => Except.error msg
    | Except.ok cfg => Except.ok (cfg, x.2)
  InitFromScratch := fun x => (x.1, base.InitFromScratch x.2)
  UtilCreateCleanDirectory := fun p b x => (x.1, base.UtilCreateCleanDirectory p b x.2)
  DiagnosticOutput := fun o p x => (x.1, base.DiagnosticOutput o p x.2)
  CoordinateTransformation := fun d x => (x.1, base.CoordinateTransformation d x.2)
  TotalNumberOfParticles := fun x => base.TotalNumberOfParticles x.2
  ResizeMesh := fun x => (x.1, base.ResizeMesh x.2)
  Redistribute := fun x => (x.1, base.Redistribute x.2)
  DepositCharge := fun x => (x.1, base.DepositCharge x.2)
  Push := fun e x => (x.1, base.Push e x.2)

/-! ## A small concrete instance -/

/-- Element kinds named in the data model, for concrete runs. -/
inductive DemoElement where
  | drift
  | magnet
  | lens
  deriving DecidableEq, Repr

/-- A miniature ensemble: its particle count, how many pushes it has received
and how many charge depositions were made. -/
structure ToyBeam where
  npart : Int
  pushes : Nat
  deposits : Nat
  deriving DecidableEq, Repr

/-- Collaborators over `ToyBeam`: pushes and depositions are counted, diagnostic
writes and the other calls leave the ensemble as it is. -/
def toyCollab : Collab ToyBeam DemoElement where
  SetParticleShape := fun s => Except.ok s
  InitFromScratch := fun s => s
  UtilCreateCleanDirectory := fun _ _ s => s
  DiagnosticOutput := fun _ _ s => s
  CoordinateTransformation := fun _ s => s
  TotalNumberOfParticles := fun s => s.npart
  ResizeMesh := fun s => s
  Redistribute := fun s => s
  DepositCharge := fun s => { s with deposits := s.deposits + 1 }
  Push := fun _ s => { s with pushes := s.pushes + 1 }

/-- Scenario A: lattice `[drift]`, one particle. -/
def scenarioA : ImpactX ToyBeam DemoElement :=
  { m_lattice := [DemoElement.drift], state := { npart := 1, pushes := 0, deposits := 0 },
    log := [] }

/-- Scenario B: lattice `[drift, lens]`, 1000 particles. -/
def scenarioB : ImpactX ToyBeam DemoElement :=
  { m_lattice := [DemoElement.drift, DemoElement.lens],
    state := { npart := 1000, pushes := 0, deposits := 0 }, log := [] }

/-- A driver whose particle shape has been configured but not yet set. -/
def freshDriver : ImpactX (ShapeConfig × ToyBeam) DemoElement :=
  { m_lattice := [DemoElement.drift],
    state := ({ algo_particle_shape := some 2, m_particle_shape := none },
      { npart := 1000, pushes := 0, deposits := 0 }),
    log := [] }

/-- Scenario C: a driver for which no particle shape has been configured. -/
def scenarioC : ImpactX (ShapeConfig × ToyBeam) DemoElement :=
  { m_lattice := [DemoElement.drift],
    state := ({ algo_particle_shape := none, m_particle_shape := none },
      { npart := 1, pushes := 0, deposits := 0 }),
    log := [] }

/-! ## Helper lemmas -/

@[simp]
theorem invoke_state (w : ImpactX σ ε) (k : Call ε) (f : σ → σ) :
    (w.invoke k f).state = f w.state := rfl

@[simp]
theorem invoke_log (w : ImpactX σ ε) (k : Call ε) (f : σ → σ) :
    (w.invoke k f).log = w.log ++ [(k, w.state)] := rfl

@[simp]
theorem invoke_lattice (w : ImpactX σ ε) (k : Call ε) (f : σ → σ) :
    (w.invoke k f).m_lattice = w.m_lattice := rfl

theorem subStep_eq (c : Collab σ ε) (e : ε) (w : ImpactX σ ε) :
    subStep c e w =
      { m_lattice := w.m_lattice, state := specBlockEnd c e w.state,
        log := w.log ++ specBlock c e w.state } := by
  unfold subStep specBlockEnd specBlock
  by_cases h : c.TotalNumberOfParticles (c.CoordinateTransformation Direction.T2Z w.state) > 1
  · simp [ImpactX.invoke, h]
  · simp [ImpactX.invoke, h]

theorem specTraversal_append (c : Collab σ ε) (xs ys : List ε) (s : σ) :
    specTraversal c (xs ++ ys) s =
      specTraversal c xs s ++ specTraversal c ys (specTraversalEnd c xs s) := by
  induction xs generalizing s with
  | nil => simp [specTraversal, specTraversalEnd]
  | cons x xs ih => simp [specTraversal, specTraversalEnd, ih]

theorem specTraversalEnd_append (c : Collab σ ε) (xs ys : List ε) (s : σ) :
    specTraversalEnd c (xs ++ ys) s = specTraversalEnd c ys (specTraversalEnd c xs s) := by
  induction xs generalizing s with
  | nil => simp [specTraversalEnd]
  | cons x xs ih => simp [specTraversalEnd, ih]

theorem stepLoop_eq (c : Collab σ ε) (e : ε) (n : Nat) (w : ImpactX σ ε) :
    stepLoop c e n w =
      { m_lattice := w.m_lattice, state := specTraversalEnd c (List.replicate n e) w.state,
        log := w.log ++ specTraversal c (List.replicate n e) w.state } := by
  induction n generalizing w with
  | zero => simp [stepLoop, specTraversalEnd, specTraversal]
  | succ n ih =>
    simp [stepLoop, ih, subStep_eq, List.replicate_succ, specTraversalEnd, specTraversal]

theorem elementLoop_eq (c : Collab σ ε) (num_steps : Int) (l : List ε) (w : ImpactX σ ε) :
    elementLoop c num_steps l w =
      { m_lattice := w.m_lattice,
        state := specTraversalEnd c (specSchedule l num_steps.toNat) w.state,
        log := w.log ++ specTraversal c (specSchedule l num_steps.toNat) w.state } := by
  induction l generalizing w with
  | nil => simp [elementLoop, specSchedule, specTraversalEnd, specTraversal]
  | cons e l ih =>
    simp only [elementLoop, ih, stepLoop_eq]
    simp [specSchedule, specTraversal_append, specTraversalEnd_append]

theorem evolve_eq (c : Collab σ ε) (num_steps : Int) (w : ImpactX σ ε) :
    evolve c num_steps w =
      { m_lattice := w.m_lattice,
        state := specFinalEnd c (specTraversalEnd c (specSchedule w.m_lattice num_steps.toNat)
          (specInitialEnd c w.state)),
        log := w.log ++ (specInitial c w.state
          ++ specTraversal c (specSchedule w.m_lattice num_steps.toNat) (specInitialEnd c w.state)
          ++ specFinal c (specTraversalEnd c (specSchedule w.m_lattice num_steps.toNat)
              (specInitialEnd c w.state))) } := by
  simp [evolve, elementLoop_eq, ImpactX.invoke, specInitial, specInitialEnd, specFinal,
    specFinalEnd,
    specDiag, specDiagEnd]

theorem evolveLog_eq (c : Collab σ ε) (num_steps : Int) (w : ImpactX σ ε) :
    evolveLog c num_steps w =
      specInitial c w.state
        ++ specTraversal c (specSchedule w.m_lattice num_steps.toNat) (specInitialEnd c w.state)
        ++ specFinal c (specTraversalEnd c (specSchedule w.m_lattice num_steps.toNat)
            (specInitialEnd c w.state)) := by
  unfold evolveLog
  rw [evolve_eq]
  exact List.drop_left _ _

theorem evolve_log_eq (c : Collab σ ε) (num_steps : Int) (w : ImpactX σ ε) :
    (evolve c num_steps w).log = w.log ++ evolveLog c num_steps w := by
  rw [evolveLog_eq, evolve_eq]

theorem evolve_state_eq (c : Collab σ ε) (num_steps : Int) (w : ImpactX σ ε) :
    (evolve c num_steps w).state =
      specFinalEnd c (specTraversalEnd c (specSchedule w.m_lattice num_steps.toNat)
        (specInitialEnd c w.state)) := by
  rw [evolve_eq]

theorem specSchedule_nil (n : Nat) : specSchedule ([] : List ε) n = [] := rfl

theorem specSchedule_cons (e : ε) (l : List ε) (n : Nat) :
    specSchedule (e :: l) n = List.replicate n e ++ specSchedule l n := by
  simp [specSchedule]

theorem specSchedule_append (l1 l2 : List ε) (n : Nat) :
    specSchedule (l1 ++ l2) n = specSchedule l1 n ++ specSchedule l2 n := by
  simp [specSchedule]

theorem specSchedule_length (l : List ε) (n : Nat) : (specSchedule l n).length = l.length * n := by
  induction l with
  | nil => simp [specSchedule_nil]
  | cons e l ih => simp [specSchedule_cons, ih, Nat.succ_mul, Nat.add_comm]

theorem specSchedule_zero (l : List ε) : specSchedule l 0 = [] := by
  induction l with
  | nil => rfl
  | cons e l ih => simp [specSchedule_cons, ih]

theorem specSchedule_getLast? (l : List ε) (n : Nat) :
    (specSchedule l n).getLast? = if n = 0 then none else l.getLast? := by
  by_cases hn : n = 0
  · subst hn
    simp [specSchedule_zero]
  · simp only [hn, if_false]
    induction l using List.reverseRecOn with
    | nil => simp [specSchedule_nil]
    | append_singleton l e _ =>
      obtain ⟨m, rfl⟩ := Nat.exists_eq_succ_of_ne_zero hn
      rw [specSchedule_append, specSchedule_cons, specSchedule_nil, List.append_nil,
        List.replicate_succ', ← List.append_assoc]
      simp

theorem specBlock_getLast? (c : Collab σ ε) (e : ε) (s : σ) :
    ((specBlock c e s).map Prod.fst).getLast? = some (Call.Push e) := by
  unfold specBlock
  by_cases h : c.TotalNumberOfParticles (c.CoordinateTransformation Direction.T2Z s) > 1
  · simp [h]
  · simp [h]

theorem specTraversal_getLast? (c : Collab σ ε) (es : List ε) (s : σ) :
    ((specTraversal c es s).map Prod.fst).getLast? = es.getLast?.map Call.Push := by
  induction es using List.reverseRecOn generalizing s with
  | nil => simp [specTraversal]
  | append_singleton es e _ =>
    rw [specTraversal_append]
    simp only [specTraversal, List.append_nil, List.map_append]
    rw [List.getLast?_append, specBlock_getLast?]
    simp

theorem specBlock_push (c : Collab σ ε) (e : ε) (s : σ) :
    ((specBlock c e s).map Prod.fst).filter Call.isPush = [Call.Push e] := by
  unfold specBlock
  by_cases h : c.TotalNumberOfParticles (c.CoordinateTransformation Direction.T2Z s) > 1
  · simp [h, Call.isPush]
  · simp [h, Call.isPush]

theorem specBlock_transform (c : Collab σ ε) (e : ε) (s : σ) :
    ((specBlock c e s).map Prod.fst).filter Call.isTransform =
      [Call.CoordinateTransformation Direction.T2Z,
       Call.CoordinateTransformation Direction.Z2T] := by
  unfold specBlock
  by_cases h : c.TotalNumberOfParticles (c.CoordinateTransformation Direction.T2Z s) > 1
  · simp [h, Call.isTransform]
  · simp [h, Call.isTransform]

theorem specBlock_transform_push (c : Collab σ ε) (e : ε) (s : σ) :
    ((specBlock c e s).map Prod.fst).filter (fun k => k.isTransform || k.isPush) =
      [Call.CoordinateTransformation Direction.T2Z,
       Call.CoordinateTransformation Direction.Z2T, Call.Push e] := by
  unfold specBlock
  by_cases h : c.TotalNumberOfParticles (c.CoordinateTransformation Direction.T2Z s) > 1
  · simp [h, Call.isTransform, Call.isPush]
  · simp [h, Call.isTransform, Call.isPush]

theorem specTraversal_push (c : Collab σ ε) (es : List ε) (s : σ) :
    ((specTraversal c es s).map Prod.fst).filter Call.isPush = es.map Call.Push := by
  induction es generalizing s with
  | nil => simp [specTraversal]
  | cons e es ih => simp [specTraversal, List.filter_append, specBlock_push, ih]

theorem specTraversal_transform_push (c : Collab σ ε) (es : List ε) (s : σ) :
    ((specTraversal c es s).map Prod.fst).filter (fun k => k.isTransform || k.isPush) =
      es.flatMap (fun e => [Call.CoordinateTransformation Direction.T2Z,
        Call.CoordinateTransformation Direction.Z2T, Call.Push e]) := by
  induction es generalizing s with
  | nil => simp [specTraversal]
  | cons e es ih =>
    simp only [specTraversal, List.map_append, List.filter_append, specBlock_transform_push, ih]
    simp

theorem specTraversal_transform_length (c : Collab σ ε) (es : List ε) (s : σ) :
    (((specTraversal c es s).map Prod.fst).filter Call.isTransform).length = 2 * es.length := by
  induction es generalizing s with
  | nil => simp [specTraversal]
  | cons e es ih =>
    simp only [specTraversal, List.map_append, List.filter_append, specBlock_transform, ih,
      List.length_append, List.length_cons, List.length_nil]
    omega

theorem specDiag_calls (c : Collab σ ε) (beam ref inv : String) (s : σ) :
    (specDiag c beam ref inv s).map Prod.fst =
      [Call.DiagnosticOutput OutputType.PrintParticles beam,
       Call.DiagnosticOutput OutputType.PrintRefParticle ref,
       Call.DiagnosticOutput OutputType.PrintNonlinearLensInvariants inv] := by
  simp [specDiag]

theorem evolveCalls_eq (c : Collab σ ε) (num_steps : Int) (w : ImpactX σ ε) :
    evolveCalls c num_steps w =
      [Call.DiagnosticOutput OutputType.PrintParticles "diags/initial_beam.txt",
       Call.DiagnosticOutput OutputType.PrintRefParticle "diags/initial_ref_particle.txt",
       Call.DiagnosticOutput OutputType.PrintNonlinearLensInvariants
         "diags/initial_nonlinear_lens_invariants.txt"]
      ++ (specTraversal c (specSchedule w.m_lattice num_steps.toNat) (specInitialEnd c w.state)).map
          Prod.fst
      ++ [Call.DiagnosticOutput OutputType.PrintParticles "diags/output_beam.txt",
       Call.DiagnosticOutput OutputType.PrintRefParticle "diags/output_ref_particle.txt",
       Call.DiagnosticOutput OutputType.PrintNonlinearLensInvariants
         "diags/output_nonlinear_lens_invariants.txt"] := by
  unfold evolveCalls
  rw [evolveLog_eq]
  simp only [List.map_append, specInitial, specFinal, specDiag_calls]

theorem subStepCalls_eq (c : Collab σ ε) (e : ε) (w : ImpactX σ ε) :
    subStepCalls c e w =
      if c.TotalNumberOfParticles (c.CoordinateTransformation Direction.T2Z w.state) > 1
      then specCoupledBlock e else specPlainBlock e := by
  unfold subStepCalls
  rw [subStep_eq]
  simp only [List.drop_left]
  unfold specBlock specCoupledBlock specPlainBlock
  by_cases h : c.TotalNumberOfParticles (c.CoordinateTransformation Direction.T2Z w.state) > 1
  · simp [h]
  · simp [h]

theorem specBlock_calls (c : Collab σ ε) (e : ε) (s : σ) :
    (specBlock c e s).map Prod.fst =
      if c.TotalNumberOfParticles (c.CoordinateTransformation Direction.T2Z s) > 1
      then specCoupledBlock e else specPlainBlock e := by
  unfold specBlock specCoupledBlock specPlainBlock
  by_cases h : c.TotalNumberOfParticles (c.CoordinateTransformation Direction.T2Z s) > 1
  · simp [h]
  · simp [h]

theorem count_specBlockEnd (c : Collab σ ε) (hp : CountPreserved c) (e : ε) (s : σ) :
    c.TotalNumberOfParticles (specBlockEnd c e s) = c.TotalNumberOfParticles s := by
  obtain ⟨_, hT, hR, hD, hC, hP⟩ := hp
  unfold specBlockEnd
  simp only [hP, hT]
  split
  · simp only [hC, hD, hR, hT]
  · simp only [hT]

theorem count_specInitialEnd (c : Collab σ ε) (hp : CountPreserved c) (s : σ) :
    c.TotalNumberOfParticles (specInitialEnd c s) = c.TotalNumberOfParticles s := by
  simp [specInitialEnd, specDiagEnd, hp.1]

theorem specTraversalCalls_of_gt (c : Collab σ ε) (hp : CountPreserved c) (es : List ε) (s : σ)
    (h : c.TotalNumberOfParticles s > 1) :
    (specTraversal c es s).map Prod.fst = es.flatMap specCoupledBlock := by
  induction es generalizing s with
  | nil => simp [specTraversal]
  | cons e es ih =>
    have h1 : c.TotalNumberOfParticles (c.CoordinateTransformation Direction.T2Z s) > 1 := by
      rw [hp.2.1]; exact h
    have h2 : c.TotalNumberOfParticles (specBlockEnd c e s) > 1 := by
      rw [count_specBlockEnd c hp]; exact h
    simp only [specTraversal, List.map_append, specBlock_calls, h1, if_true, ih _ h2,
      List.flatMap_cons]

theorem specTraversalCalls_of_le (c : Collab σ ε) (hp : CountPreserved c) (es : List ε) (s : σ)
    (h : c.TotalNumberOfParticles s ≤ 1) :
    (specTraversal c es s).map Prod.fst = es.flatMap specPlainBlock := by
  induction es generalizing s with
  | nil => simp [specTraversal]
  | cons e es ih =>
    have h1 : ¬ c.TotalNumberOfParticles (c.CoordinateTransformation Direction.T2Z s) > 1 := by
      rw [hp.2.1]; exact not_lt.mpr h
    have h2 : c.TotalNumberOfParticles (specBlockEnd c e s) ≤ 1 := by
      rw [count_specBlockEnd c hp]; exact h
    simp only [specTraversal, List.map_append, specBlock_calls, h1, if_false, ih _ h2,
      List.flatMap_cons]

theorem flatMap_filter_length {α β : Type} (p : β → Bool) (f : α → List β) (m : Nat)
    (h : ∀ a, ((f a).filter p).length = m) (l : List α) :
    ((l.flatMap f).filter p).length = l.length * m := by
  induction l with
  | nil => simp
  | cons a l ih =>
    simp only [List.flatMap_cons, List.filter_append, List.length_append, h, ih,
      List.length_cons, Nat.succ_mul]
    omega

theorem evolveCalls_filter (c : Collab σ ε) (num_steps : Int) (w : ImpactX σ ε)
    (p : Call ε → Bool) (hp : ∀ o f, p (Call.DiagnosticOutput o f) = false) :
    (evolveCalls c num_steps w).filter p =
      ((specTraversal c (specSchedule w.m_lattice num_steps.toNat) (specInitialEnd c w.state)).map
        Prod.fst).filter p := by
  rw [evolveCalls_eq]
  simp [List.filter_append, hp]

theorem traversal_log (c : Collab σ ε) (num_steps : Int) (w : ImpactX σ ε) :
    (traversal c num_steps w).log =
      specTraversal c (specSchedule w.m_lattice num_steps.toNat) (specInitialEnd c w.state) := by
  simp [traversal, elementLoop_eq, specInitialEnd, specDiagEnd]

theorem traversal_state (c : Collab σ ε) (num_steps : Int) (w : ImpactX σ ε) :
    (traversal c num_steps w).state =
      specTraversalEnd c (specSchedule w.m_lattice num_steps.toNat) (specInitialEnd c w.state) := by
  simp [traversal, elementLoop_eq, specInitialEnd, specDiagEnd]

theorem specBlock_physics (c : Collab σ ε) (e : ε) (s : σ) :
    (specBlock c e s).filter (fun x => x.1.isPhysics) = specBlock c e s := by
  unfold specBlock
  by_cases h : c.TotalNumberOfParticles (c.CoordinateTransformation Direction.T2Z s) > 1
  · simp [h, Call.isPhysics, Call.isTransform, Call.isCoupling, Call.isPush,
      Call.isResizeMesh, Call.isRedistribute, Call.isDepositCharge]
  · simp [h, Call.isPhysics, Call.isTransform, Call.isCoupling, Call.isPush]

theorem specTraversal_physics (c : Collab σ ε) (es : List ε) (s : σ) :
    (specTraversal c es s).filter (fun x => x.1.isPhysics) = specTraversal c es s := by
  induction es generalizing s with
  | nil => simp [specTraversal]
  | cons e es ih => simp only [specTraversal, List.filter_append, specBlock_physics, ih]

theorem specTraversal_all_physics (c : Collab σ ε) (es : List ε) (s : σ) :
    ((specTraversal c es s).map Prod.fst).all Call.isPhysics = true := by
  have h := specTraversal_physics c es s
  rw [List.filter_eq_self] at h
  simp only [List.all_eq_true, List.mem_map]
  rintro k ⟨x, hx, rfl⟩
  exact h x hx

theorem specInitialEnd_of_pure (c : Collab σ ε) (hd : ∀ o p s, c.DiagnosticOutput o p s = s)
    (s : σ) : specInitialEnd c s = s := by
  simp [specInitialEnd, specDiagEnd, hd]

theorem specFinalEnd_of_pure (c : Collab σ ε) (hd : ∀ o p s, c.DiagnosticOutput o p s = s)
    (s : σ) : specFinalEnd c s = s := by
  simp [specFinalEnd, specDiagEnd, hd]

theorem frameTrace_append (xs ys : List (Call ε)) :
    ∀ (f f1 f2 : Frame) (t1 t2 : List (Call ε × Frame)),
      frameTrace f xs = some (t1, f1) → frameTrace f1 ys = some (t2, f2) →
      frameTrace f (xs ++ ys) = some (t1 ++ t2, f2) := by
  induction xs with
  | nil =>
    intro f f1 f2 t1 t2 h1 h2
    simp only [frameTrace, Option.some.injEq, Prod.mk.injEq] at h1
    obtain ⟨rfl, rfl⟩ := h1
    simpa using h2
  | cons k ks ih =>
    intro f f1 f2 t1 t2 h1 h2
    simp only [frameTrace] at h1
    cases hs : frameStep f k with
    | none => simp [hs] at h1
    | some f3 =>
      simp only [hs] at h1
      cases hr : frameTrace f3 ks with
      | none => simp [hr] at h1
      | some r =>
        obtain ⟨t3, f4⟩ := r
        simp only [hr, Option.some.injEq, Prod.mk.injEq] at h1
        obtain ⟨rfl, rfl⟩ := h1
        have := ih f3 f4 f2 t3 t2 hr h2
        simp [frameTrace, hs, this]

theorem frameTrace_calls (xs : List (Call ε)) :
    ∀ (f f1 : Frame) (t : List (Call ε × Frame)),
      frameTrace f xs = some (t, f1) → t.map Prod.fst = xs := by
  induction xs with
  | nil =>
    intro f f1 t h
    simp only [frameTrace, Option.some.injEq, Prod.mk.injEq] at h
    obtain ⟨rfl, _⟩ := h
    rfl
  | cons k ks ih =>
    intro f f1 t h
    simp only [frameTrace] at h
    cases hs : frameStep f k with
    | none => simp [hs] at h
    | some f3 =>
      simp only [hs] at h
      cases hr : frameTrace f3 ks with
      | none => simp [hr] at h
      | some r =>
        obtain ⟨t3, f4⟩ := r
        simp only [hr, Option.some.injEq, Prod.mk.injEq] at h
        obtain ⟨rfl, rfl⟩ := h
        simp [ih f3 f4 t3 hr]

theorem frameTrace_block (c : Collab σ ε) (e : ε) (s : σ) :
    ∃ t, frameTrace Frame.TRANSVERSE_TIME ((specBlock c e s).map Prod.fst)
        = some (t, Frame.TRANSVERSE_TIME) ∧ t.all frameOK = true := by
  rw [specBlock_calls]
  split
  · exact ⟨_, rfl, rfl⟩
  · exact ⟨_, rfl, rfl⟩

theorem frameTrace_schedule (c : Collab σ ε) (es : List ε) (s : σ) :
    ∃ t, frameTrace Frame.TRANSVERSE_TIME ((specTraversal c es s).map Prod.fst)
        = some (t, Frame.TRANSVERSE_TIME) ∧ t.all frameOK = true := by
  induction es generalizing s with
  | nil => exact ⟨[], rfl, rfl⟩
  | cons e es ih =>
    obtain ⟨t1, h1, a1⟩ := frameTrace_block c e s
    obtain ⟨t2, h2, a2⟩ := ih (specBlockEnd c e s)
    refine ⟨t1 ++ t2, ?_, ?_⟩
    · simp only [specTraversal, List.map_append]
      exact frameTrace_append _ _ _ _ _ _ _ h1 h2
    · simp [List.all_append, a1, a2]

theorem evolveCalls_init (c : Collab σ ε) (num_steps : Int) (w : ImpactX σ ε) :
    (evolveCalls c num_steps w).filter Call.isInit = [] := by
  have hall := specTraversal_all_physics c (specSchedule w.m_lattice num_steps.toNat)
    (specInitialEnd c w.state)
  have hn : ((specTraversal c (specSchedule w.m_lattice num_steps.toNat)
      (specInitialEnd c w.state)).map
      Prod.fst).filter Call.isInit = [] := by
    rw [List.filter_eq_nil_iff]
    intro k hk
    have := List.all_eq_true.mp hall k hk
    cases k <;> simp_all [Call.isPhysics, Call.isTransform, Call.isCoupling, Call.isPush,
      Call.isResizeMesh, Call.isRedistribute, Call.isDepositCharge, Call.isInit]
  rw [evolveCalls_eq]
  simp only [List.filter_append, hn]
  simp [Call.isInit]

theorem evolveLog_physics (c : Collab σ ε) (num_steps : Int) (w : ImpactX σ ε) :
    (evolveLog c num_steps w).filter (fun x => x.1.isPhysics) =
      specTraversal c (specSchedule w.m_lattice num_steps.toNat) (specInitialEnd c w.state) := by
  rw [evolveLog_eq]
  simp only [List.filter_append, specTraversal_physics]
  simp [specInitial, specFinal, specDiag, Call.isPhysics, Call.isTransform, Call.isCoupling,
    Call.isPush, Call.isResizeMesh, Call.isRedistribute, Call.isDepositCharge]

theorem evolveLog_diagnostic_length (c : Collab σ ε) (num_steps : Int) (w : ImpactX σ ε) :
    ((evolveLog c num_steps w).filter (fun x => x.1.isDiagnostic)).length = 6 := by
  have hphys := specTraversal_physics c (specSchedule w.m_lattice num_steps.toNat)
    (specInitialEnd c w.state)
  rw [List.filter_eq_self] at hphys
  have hn : (specTraversal c (specSchedule w.m_lattice num_steps.toNat)
      (specInitialEnd c w.state)).filter (fun x => x.1.isDiagnostic) = [] := by
    rw [List.filter_eq_nil_iff]
    intro x hx
    have := hphys x hx
    obtain ⟨k, s⟩ := x
    cases k <;> simp_all [Call.isPhysics, Call.isTransform, Call.isCoupling, Call.isPush,
      Call.isResizeMesh, Call.isRedistribute, Call.isDepositCharge, Call.isDiagnostic]
  rw [evolveLog_eq]
  simp only [List.filter_append, hn]
  simp [specInitial, specFinal, specDiag, Call.isDiagnostic]

theorem withShape_specTraversalEnd (base : Collab σ ε) (es : List ε) (x : ShapeConfig × σ) :
    (specTraversalEnd (withShape base) es x).1 = x.1 := by
  induction es generalizing x with
  | nil => rfl
  | cons e es ih =>
    rw [specTraversalEnd, ih]
    unfold specBlockEnd
    simp only [withShape]
    split <;> rfl

theorem withShape_evolve_shape (base : Collab σ ε) (num_steps : Int)
    (w : ImpactX (ShapeConfig × σ) ε) :
    (evolve (withShape base) num_steps w).state.1 = w.state.1 := by
  rw [evolve_state_eq]
  have h := withShape_specTraversalEnd base (specSchedule w.m_lattice num_steps.toNat)
    (specInitialEnd (withShape base) w.state)
  have h0 : (specInitialEnd (withShape base) w.state).1 = w.state.1 := rfl
  rw [h0] at h
  rw [← h]
  rfl

theorem initGrids_shape_set (base : Collab σ ε) (w : ImpactX (ShapeConfig × σ) ε)
    (h : w.state.1.m_particle_shape ≠ none) :
    initGrids (withShape base) w =
      Except.error ("particle shape was already set and cannot be changed",
        { m_lattice := w.m_lattice, state := w.state,
          log := w.log ++ [(Call.SetParticleShape, w.state)] }) := by
  obtain ⟨L, ⟨⟨a, m⟩, s⟩, lg⟩ := w
  cases m with
  | none => exact absurd rfl h
  | some v => rfl

theorem initGridsAgain_shape_set (base : Collab σ ε) (k : Nat)
    (w : ImpactX (ShapeConfig × σ) ε) (h : w.state.1.m_particle_shape ≠ none) :
    initGridsAgain (withShape base) k w =
      (List.replicate k false,
        { m_lattice := w.m_lattice, state := w.state,
          log := w.log ++ List.replicate k (Call.SetParticleShape, w.state) }) := by
  induction k generalizing w with
  | zero => simp [initGridsAgain]
  | succ k ih =>
    simp only [initGridsAgain, initGrids_shape_set base w h]
    rw [ih { m_lattice := w.m_lattice, state := w.state,
             log := w.log ++ [(Call.SetParticleShape, w.state)] } h]
    simp [List.replicate_succ]

theorem specBlock_head (c : Collab σ ε) (e : ε) (s : σ) :
    ∃ tl : List (Call ε × σ),
      specBlock c e s = (Call.CoordinateTransformation Direction.T2Z, s) :: tl
        ∧ ∀ y ∈ tl, y.1 ≠ Call.CoordinateTransformation Direction.T2Z := by
  unfold specBlock
  by_cases h : c.TotalNumberOfParticles (c.CoordinateTransformation Direction.T2Z s) > 1
  · simp only [h, if_true]
    refine ⟨_, rfl, ?_⟩
    intro y hy
    simp only [List.mem_cons, List.mem_singleton, List.not_mem_nil, or_false] at hy
    rcases hy with rfl | rfl | rfl | rfl | rfl <;> simp
  · simp only [h, if_false]
    refine ⟨_, rfl, ?_⟩
    intro y hy
    simp only [List.mem_cons, List.mem_singleton, List.not_mem_nil, or_false] at hy
    rcases hy with rfl | rfl <;> simp

theorem specBlock_decision_mem (c : Collab σ ε) (e : ε) (s : σ) :
    ∃ k, (k, c.CoordinateTransformation Direction.T2Z s) ∈ specBlock c e s := by
  unfold specBlock
  by_cases h : c.TotalNumberOfParticles (c.CoordinateTransformation Direction.T2Z s) > 1
  · exact ⟨Call.ResizeMesh, by simp [h]⟩
  · exact ⟨Call.CoordinateTransformation Direction.Z2T, by simp [h]⟩

theorem specTraversal_block_at (c : Collab σ ε) (es : List ε) :
    ∀ (s0 s : σ) (pre rest : List (Call ε × σ)),
      specTraversal c es s0 = pre ++ (Call.CoordinateTransformation Direction.T2Z, s) :: rest →
      ∃ e r, (Call.CoordinateTransformation Direction.T2Z, s) :: rest = specBlock c e s ++ r := by
  induction es with
  | nil =>
    intro s0 s pre rest h
    simp [specTraversal] at h
  | cons e es ih =>
    intro s0 s pre rest h
    rw [specTraversal] at h
    obtain ⟨tl, hb, htl⟩ := specBlock_head c e s0
    rcases List.append_eq_append_iff.mp h with ⟨a, _, ha⟩ | ⟨b, hb1, hb2⟩
    · exact ih _ s a rest ha
    · cases b with
      | nil =>
        simp only [List.nil_append] at hb2
        exact ih _ s [] rest (by simpa using hb2.symm)
      | cons x b =>
        simp only [List.cons_append, List.cons.injEq] at hb2
        obtain ⟨hx, hrest⟩ := hb2
        subst hx
        rw [hb] at hb1
        cases pre with
        | nil =>
          simp only [List.nil_append, List.cons.injEq, Prod.mk.injEq, true_and] at hb1
          obtain ⟨hs, htl2⟩ := hb1
          subst hs
          refine ⟨e, specTraversal c es (specBlockEnd c e s0), ?_⟩
          rw [hb, hrest, htl2]
          rfl
        | cons p pre =>
          simp only [List.cons_append, List.cons.injEq] at hb1
          obtain ⟨_, htl2⟩ := hb1
          exact absurd rfl
            (htl (Call.CoordinateTransformation Direction.T2Z, s) (by rw [htl2]; simp))

theorem split_middle {α : Type} (A M B pre rest : List α) (x : α) (hA : x ∉ A) (hB : x ∉ B)
    (h : A ++ M ++ B = pre ++ x :: rest) :
    ∃ pre1 rest1, M = pre1 ++ x :: rest1 ∧ rest = rest1 ++ B := by
  rcases List.append_eq_append_iff.mp h with ⟨a, _, ha⟩ | ⟨b, hb1, hb2⟩
  · exact absurd (by rw [ha]; simp) hB
  · cases b with
    | nil =>
      simp only [List.nil_append] at hb2
      exact absurd (by rw [← hb2]; simp) hB
    | cons y b =>
      simp only [List.cons_append, List.cons.injEq] at hb2
      obtain ⟨hy, hrest⟩ := hb2
      subst hy
      rcases List.append_eq_append_iff.mp hb1 with ⟨a2, _, ha2⟩ | ⟨b2, hb3, hb4⟩
      · exact ⟨a2, b, ha2, hrest⟩
      · cases b2 with
        | nil =>
          simp only [List.nil_append] at hb4
          exact ⟨[], b, by simpa using hb4.symm, hrest⟩
        | cons z b2 =>
          simp only [List.cons_append, List.cons.injEq] at hb4
          obtain ⟨hz, _⟩ := hb4
          subst hz
          exact absurd (by rw [hb3]; simp) hA

theorem evolveLog_block_at (c : Collab σ ε) (num_steps : Int) (w : ImpactX σ ε) (s : σ)
    (pre rest : List (Call ε × σ))
    (h : evolveLog c num_steps w
      = pre ++ (Call.CoordinateTransformation Direction.T2Z, s) :: rest) :
    ∃ e r, (Call.CoordinateTransformation Direction.T2Z, s) :: rest = specBlock c e s ++ r := by
  rw [evolveLog_eq] at h
  obtain ⟨pre1, rest1, hM, hrest⟩ := split_middle _ _ _ _ _ _
    (by simp [specInitial, specDiag]) (by simp [specFinal, specDiag]) h
  obtain ⟨e, r, hr⟩ := specTraversal_block_at c _ _ s pre1 rest1 hM
  refine ⟨e, r ++ specFinal c (specTraversalEnd c (specSchedule w.m_lattice num_steps.toNat)
    (specInitialEnd c w.state)), ?_⟩
  rw [hrest, ← List.append_assoc, ← hr]
  rfl

theorem specTraversalCalls_of_run_gt (c : Collab σ ε) (N : Int) (hN : N > 1) (es : List ε) :
    ∀ s : σ, (∀ x ∈ specTraversal c es s, c.TotalNumberOfParticles x.2 = N) →
      (specTraversal c es s).map Prod.fst = es.flatMap specCoupledBlock := by
  induction es with
  | nil => intro s _; simp [specTraversal]
  | cons e es ih =>
    intro s h
    rw [specTraversal] at h
    obtain ⟨k, hk⟩ := specBlock_decision_mem c e s
    have h1 : c.TotalNumberOfParticles (c.CoordinateTransformation Direction.T2Z s) > 1 := by
      rw [h _ (List.mem_append_left _ hk)]; exact hN
    have h2 := ih (specBlockEnd c e s) (fun x hx => h x (List.mem_append_right _ hx))
    simp only [specTraversal, List.map_append, specBlock_calls, h1, if_true, h2,
      List.flatMap_cons]

theorem specTraversalCalls_of_run_le (c : Collab σ ε) (N : Int) (hN : N ≤ 1) (es : List ε) :
    ∀ s : σ, (∀ x ∈ specTraversal c es s, c.TotalNumberOfParticles x.2 = N) →
      (specTraversal c es s).map Prod.fst = es.flatMap specPlainBlock := by
  induction es with
  | nil => intro s _; simp [specTraversal]
  | cons e es ih =>
    intro s h
    rw [specTraversal] at h
    obtain ⟨k, hk⟩ := specBlock_decision_mem c e s
    have h1 : ¬ c.TotalNumberOfParticles (c.CoordinateTransformation Direction.T2Z s) > 1 := by
      rw [h _ (List.mem_append_left _ hk)]; exact not_lt.mpr hN
    have h2 := ih (specBlockEnd c e s) (fun x hx => h x (List.mem_append_right _ hx))
    simp only [specTraversal, List.map_append, specBlock_calls, h1, if_false, h2,
      List.flatMap_cons]

theorem count_specBlock (c : Collab σ ε) (hp : CountPreserved c) (e : ε) (s : σ) :
    ∀ x ∈ specBlock c e s, c.TotalNumberOfParticles x.2 = c.TotalNumberOfParticles s := by
  obtain ⟨_, hT, hR, hD, hC, _⟩ := hp
  unfold specBlock
  intro x hx
  by_cases h : c.TotalNumberOfParticles (c.CoordinateTransformation Direction.T2Z s) > 1
  · simp only [h, if_true, List.mem_cons, List.mem_singleton, List.not_mem_nil,
      or_false] at hx
    rcases hx with rfl | rfl | rfl | rfl | rfl | rfl <;> simp only [hT, hR, hD, hC]
  · simp only [h, if_false, List.mem_cons, List.mem_singleton, List.not_mem_nil,
      or_false] at hx
    rcases hx with rfl | rfl | rfl <;> simp only [hT]

theorem count_specTraversal (c : Collab σ ε) (hp : CountPreserved c) (es : List ε) :
    ∀ s : σ, ∀ x ∈ specTraversal c es s,
      c.TotalNumberOfParticles x.2 = c.TotalNumberOfParticles s := by
  induction es with
  | nil => intro s x hx; simp [specTraversal] at hx
  | cons e es ih =>
    intro s x hx
    rw [specTraversal, List.mem_append] at hx
    rcases hx with hx | hx
    · exact count_specBlock c hp e s x hx
    · rw [ih _ x hx, count_specBlockEnd c hp]

theorem count_specTraversalEnd (c : Collab σ ε) (hp : CountPreserved c) (es : List ε) :
    ∀ s : σ,
      c.TotalNumberOfParticles (specTraversalEnd c es s) = c.TotalNumberOfParticles s := by
  induction es with
  | nil => intro s; rfl
  | cons e es ih => intro s; rw [specTraversalEnd, ih, count_specBlockEnd c hp]

theorem count_evolveLog (c : Collab σ ε) (hp : CountPreserved c) (num_steps : Int)
    (w : ImpactX σ ε) :
    ∀ x ∈ evolveLog c num_steps w,
      c.TotalNumberOfParticles x.2 = c.TotalNumberOfParticles w.state := by
  intro x hx
  rw [evolveLog_eq, List.mem_append, List.mem_append] at hx
  rcases hx with (hx | hx) | hx
  · simp only [specInitial, specDiag, List.mem_cons, List.mem_singleton, List.not_mem_nil,
      or_false] at hx
    rcases hx with rfl | rfl | rfl <;> simp [hp.1]
  · rw [count_specTraversal c hp _ _ x hx, count_specInitialEnd c hp]
  · have hE : c.TotalNumberOfParticles (specTraversalEnd c
        (specSchedule w.m_lattice num_steps.toNat) (specInitialEnd c w.state))
        = c.TotalNumberOfParticles w.state := by
      rw [count_specTraversalEnd c hp, count_specInitialEnd c hp]
    simp only [specFinal, specDiag, List.mem_cons, List.mem_singleton, List.not_mem_nil,
      or_false] at hx
    rcases hx with rfl | rfl | rfl <;> simp [hp.1, hE]

theorem evolveCalls_frames (c : Collab σ ε) (num_steps : Int) (w : ImpactX σ ε) :
    ∃ tagged : List (Call ε × Frame),
      frameTrace Frame.TRANSVERSE_TIME (evolveCalls c num_steps w)
          = some (tagged, Frame.TRANSVERSE_TIME)
        ∧ tagged.all frameOK = true := by
  obtain ⟨t, ht, ha⟩ :=
    frameTrace_schedule c (specSchedule w.m_lattice num_steps.toNat) (specInitialEnd c w.state)
  have h1 : frameTrace Frame.TRANSVERSE_TIME
      ([Call.DiagnosticOutput OutputType.PrintParticles "diags/initial_beam.txt",
        Call.DiagnosticOutput OutputType.PrintRefParticle "diags/initial_ref_particle.txt",
        Call.DiagnosticOutput OutputType.PrintNonlinearLensInvariants
          "diags/initial_nonlinear_lens_invariants.txt"] : List (Call ε))
      = some (_, Frame.TRANSVERSE_TIME) := rfl
  have h3 : frameTrace Frame.TRANSVERSE_TIME
      ([Call.DiagnosticOutput OutputType.PrintParticles "diags/output_beam.txt",
        Call.DiagnosticOutput OutputType.PrintRefParticle "diags/output_ref_particle.txt",
        Call.DiagnosticOutput OutputType.PrintNonlinearLensInvariants
          "diags/output_nonlinear_lens_invariants.txt"] : List (Call ε))
      = some (_, Frame.TRANSVERSE_TIME) := rfl
  have h123 := frameTrace_append _ _ _ _ _ _ _ (frameTrace_append _ _ _ _ _ _ _ h1 ht) h3
  rw [← evolveCalls_eq c num_steps w] at h123
  exact ⟨_, h123, by simp [List.all_append, ha, frameOK]⟩

theorem frameOK_coupling (k : Call ε) (f : Frame) (hk : k.isCoupling = true)
    (h : frameOK (k, f) = true) : f = Frame.SPATIAL := by
  cases k <;> simp_all [Call.isCoupling, Call.isResizeMesh, Call.isRedistribute,
    Call.isDepositCharge, frameOK]

theorem toyCollab_countPreserved : CountPreserved toyCollab :=
  ⟨fun _ _ _ => rfl, fun _ _ => rfl, fun _ => rfl, fun _ => rfl, fun _ => rfl,
    fun _ _ => rfl⟩

/-! ## Claims -/

/-- C1. The calls made by one `evolve(num_steps)`, `num_steps = n ≥ 0`, are exactly:
the three initial diagnostic writes; then, for each element in lattice order and
each of the `n` sub-steps, the block T2Z, (ResizeMesh, Redistribute,
DepositCharge when the particle count exceeds 1), Z2T, Push of that element;
then the three final diagnostic writes.  These entries are appended to the log
and nothing else is.  The last call of the traversal, when there is one, is the
Push of the last lattice element. -/
theorem C1_evolve_call_sequence (c : Collab σ ε) (n : Nat) (w : ImpactX σ ε) :
    evolveLog c n w =
        specInitial c w.state
          ++ specTraversal c (specSchedule w.m_lattice n) (specInitialEnd c w.state)
          ++ specFinal c
              (specTraversalEnd c (specSchedule w.m_lattice n) (specInitialEnd c w.state))
      ∧ (evolve c n w).log = w.log ++ evolveLog c n w
      ∧ (evolve c n w).m_lattice = w.m_lattice
      ∧ ((specTraversal c (specSchedule w.m_lattice n) (specInitialEnd c w.state)).map
            Prod.fst).getLast?
          = if n = 0 then none else w.m_lattice.getLast?.map Call.Push := by
  refine ⟨?_, evolve_log_eq c n w, ?_, ?_⟩
  · simpa using evolveLog_eq c n w
  · rw [evolve_eq]
  · rw [specTraversal_getLast?, specSchedule_getLast?]
    by_cases hn : n = 0 <;> simp [hn]

/-- C2. For a lattice of `k` elements and `num_steps = n ≥ 0`, the Push calls of
one `evolve` are the first element `n` times, then the second `n` times, and so
on: `k * n` pushes.  Restricted to transforms and pushes the call sequence is
T2Z, Z2T, Push for each sub-step in turn, so every push has exactly one T2Z and
one Z2T before it in its sub-step, and there are `2 * k * n` transforms. -/
theorem C2_push_and_transform_counts (c : Collab σ ε) (n : Nat) (w : ImpactX σ ε) :
    (evolveCalls c n w).filter Call.isPush
        = (w.m_lattice.flatMap (fun e => List.replicate n e)).map Call.Push
      ∧ ((evolveCalls c n w).filter Call.isPush).length = w.m_lattice.length * n
      ∧ (evolveCalls c n w).filter (fun k => k.isTransform || k.isPush)
        = (w.m_lattice.flatMap (fun e => List.replicate n e)).flatMap
            (fun e => [Call.CoordinateTransformation Direction.T2Z,
              Call.CoordinateTransformation Direction.Z2T, Call.Push e])
      ∧ ((evolveCalls c n w).filter Call.isTransform).length = 2 * w.m_lattice.length * n := by
  have hp : (evolveCalls c n w).filter Call.isPush
      = (specSchedule w.m_lattice n).map Call.Push := by
    rw [evolveCalls_eq]
    simp [List.filter_append, specTraversal_push, Call.isPush]
  refine ⟨hp, ?_, ?_, ?_⟩
  · rw [hp, List.length_map, specSchedule_length]
  · rw [evolveCalls_eq]
    simp only [List.filter_append, specTraversal_transform_push, Int.toNat_ofNat]
    simp [Call.isTransform, Call.isPush, specSchedule]
  · rw [evolveCalls_eq]
    simp only [List.filter_append, List.length_append, specTraversal_transform_length,
      Int.toNat_ofNat, specSchedule_length]
    simp [Call.isTransform, Nat.mul_assoc]

/-- C3. A sub-step that starts in the TRANSVERSE_TIME frame makes T2Z, then, exactly
when the particle count reported after T2Z exceeds 1, ResizeMesh, Redistribute and
DepositCharge in this order, then Z2T and the push.  Tagging each call of the
sub-step with the frame it is made in: each of the three space-charge calls
occurs with frame tag `f` if and only if `f` is SPATIAL and that count exceeds 1,
so they are made in the SPATIAL frame only, between the two transforms, and not
at all otherwise.  In `evolve` every T2Z call opens such a block, whose
space-charge calls are made exactly when the count reported on the state after
that T2Z exceeds 1, and every space-charge call of `evolve` is made in the
SPATIAL frame.  When the particle count is the same number `N` on every state a
call of the run is made on: with `N ≤ 1` no space-charge call is made, with
`N > 1` each of the three is made `k * n` times for a lattice of `k` elements and
`num_steps = n`; the number of pushes is `k * n` in both cases.  The count is such
a constant whenever no collaborator changes it. -/
theorem C3_space_charge_condition (c : Collab σ ε) (e : ε) (n : Nat) (w : ImpactX σ ε)
    (N : Int) :
    (∃ tagged : List (Call ε × Frame),
        frameTrace Frame.TRANSVERSE_TIME (subStepCalls c e w)
            = some (tagged, Frame.TRANSVERSE_TIME)
        ∧ tagged =
            (if c.TotalNumberOfParticles (c.CoordinateTransformation Direction.T2Z w.state) > 1
             then
               [(Call.CoordinateTransformation Direction.T2Z, Frame.TRANSVERSE_TIME),
                (Call.ResizeMesh, Frame.SPATIAL), (Call.Redistribute, Frame.SPATIAL),
                (Call.DepositCharge, Frame.SPATIAL),
                (Call.CoordinateTransformation Direction.Z2T, Frame.SPATIAL),
                (Call.Push e, Frame.TRANSVERSE_TIME)]
             else
               [(Call.CoordinateTransformation Direction.T2Z, Frame.TRANSVERSE_TIME),
                (Call.CoordinateTransformation Direction.Z2T, Frame.SPATIAL),
                (Call.Push e, Frame.TRANSVERSE_TIME)])
        ∧ (∀ f : Frame, (Call.ResizeMesh, f) ∈ tagged ↔
            (f = Frame.SPATIAL ∧
              c.TotalNumberOfParticles (c.CoordinateTransformation Direction.T2Z w.state) > 1))
        ∧ (∀ f : Frame, (Call.Redistribute, f) ∈ tagged ↔
            (f = Frame.SPATIAL ∧
              c.TotalNumberOfParticles (c.CoordinateTransformation Direction.T2Z w.state) > 1))
        ∧ (∀ f : Frame, (Call.DepositCharge, f) ∈ tagged ↔
            (f = Frame.SPATIAL ∧
              c.TotalNumberOfParticles (c.CoordinateTransformation Direction.T2Z w.state) > 1)))
      ∧ (subStep c e w).log = w.log ++ specBlock c e w.state
      ∧ (∀ (s : σ) (pre rest : List (Call ε × σ)),
          evolveLog c n w = pre ++ (Call.CoordinateTransformation Direction.T2Z, s) :: rest →
          ∃ e1 r, (Call.CoordinateTransformation Direction.T2Z, s) :: rest
            = specBlock c e1 s ++ r)
      ∧ (∃ tagged : List (Call ε × Frame),
          frameTrace Frame.TRANSVERSE_TIME (evolveCalls c n w)
              = some (tagged, Frame.TRANSVERSE_TIME)
          ∧ ∀ (k : Call ε) (f : Frame), (k, f) ∈ tagged → k.isCoupling = true →
              f = Frame.SPATIAL)
      ∧ ((∀ x ∈ evolveLog c n w, c.TotalNumberOfParticles x.2 = N) →
          (N ≤ 1 → (evolveCalls c n w).filter Call.isCoupling = [])
          ∧ (N > 1 →
            ((evolveCalls c n w).filter Call.isResizeMesh).length = w.m_lattice.length * n
            ∧ ((evolveCalls c n w).filter Call.isRedistribute).length = w.m_lattice.length * n
            ∧ ((evolveCalls c n w).filter Call.isDepositCharge).length
                = w.m_lattice.length * n))
      ∧ ((evolveCalls c n w).filter Call.isPush).length = w.m_lattice.length * n
      ∧ (CountPreserved c →
          ∀ x ∈ evolveLog c n w,
            c.TotalNumberOfParticles x.2 = c.TotalNumberOfParticles w.state) := by
  have hsub := subStepCalls_eq c e w
  refine ⟨?_, ?_, ?_, ?_, ?_, ?_, ?_⟩
  · rw [hsub]
    by_cases h : c.TotalNumberOfParticles (c.CoordinateTransformation Direction.T2Z w.state) > 1
    · refine ⟨_, ?_, rfl, ?_, ?_, ?_⟩
      · simp only [h, if_true]; rfl
      · intro f; cases f <;> simp [h]
      · intro f; cases f <;> simp [h]
      · intro f; cases f <;> simp [h]
    · refine ⟨_, ?_, rfl, ?_, ?_, ?_⟩
      · simp only [h, if_false]; rfl
      · intro f; cases f <;> simp [h]
      · intro f; cases f <;> simp [h]
      · intro f; cases f <;> simp [h]
  · rw [subStep_eq]
  · intro s pre rest h
    exact evolveLog_block_at c n w s pre rest h
  · obtain ⟨tagged, ht, ha⟩ := evolveCalls_frames c n w
    refine ⟨tagged, ht, ?_⟩
    intro k f hkf hk
    exact frameOK_coupling k f hk (List.all_eq_true.mp ha (k, f) hkf)
  · intro hrun
    have hrun2 : ∀ x ∈ specTraversal c (specSchedule w.m_lattice (n : Int).toNat)
        (specInitialEnd c w.state), c.TotalNumberOfParticles x.2 = N := by
      intro x hx
      apply hrun x
      rw [evolveLog_eq]
      exact List.mem_append_left _ (List.mem_append_right _ hx)
    refine ⟨?_, ?_⟩
    · intro hle
      rw [evolveCalls_filter c n w _ (fun _ _ => rfl),
        specTraversalCalls_of_run_le c N hle _ _ hrun2]
      have := flatMap_filter_length (Call.isCoupling) (specPlainBlock (ε := ε)) 0
        (fun a => by simp [specPlainBlock, Call.isCoupling, Call.isResizeMesh,
          Call.isRedistribute, Call.isDepositCharge])
        (specSchedule w.m_lattice (n : Int).toNat)
      simpa using this
    · intro hgt
      refine ⟨?_, ?_, ?_⟩
      · rw [evolveCalls_filter c n w _ (fun _ _ => rfl),
          specTraversalCalls_of_run_gt c N hgt _ _ hrun2]
        rw [flatMap_filter_length (Call.isResizeMesh) (specCoupledBlock (ε := ε)) 1
          (fun a => by simp [specCoupledBlock, Call.isResizeMesh])]
        simp [specSchedule_length]
      · rw [evolveCalls_filter c n w _ (fun _ _ => rfl),
          specTraversalCalls_of_run_gt c N hgt _ _ hrun2]
        rw [flatMap_filter_length (Call.isRedistribute) (specCoupledBlock (ε := ε)) 1
          (fun a => by simp [specCoupledBlock, Call.isRedistribute])]
        simp [specSchedule_length]
      · rw [evolveCalls_filter c n w _ (fun _ _ => rfl),
          specTraversalCalls_of_run_gt c N hgt _ _ hrun2]
        rw [flatMap_filter_length (Call.isDepositCharge) (specCoupledBlock (ε := ε)) 1
          (fun a => by simp [specCoupledBlock, Call.isDepositCharge])]
        simp [specSchedule_length]
  · rw [evolveCalls_filter c n w _ (fun _ _ => rfl), specTraversal_push, List.length_map,
      specSchedule_length]
    simp
  · intro hp
    exact count_evolveLog c hp n w

/-- C3, scenarios A and B: lattice `[drift]`, one sub-step, one particle gives no
space-charge call and one push; lattice `[drift, lens]`, two sub-steps, 1000
particles gives four calls of each space-charge collaborator and four pushes. -/
theorem C3_space_charge_condition_witness :
    ((evolveCalls toyCollab 1 scenarioA).filter Call.isCoupling = []
      ∧ ((evolveCalls toyCollab 1 scenarioA).filter Call.isPush).length = 1)
    ∧ (((evolveCalls toyCollab 2 scenarioB).filter Call.isResizeMesh).length = 4
      ∧ ((evolveCalls toyCollab 2 scenarioB).filter Call.isRedistribute).length = 4
      ∧ ((evolveCalls toyCollab 2 scenarioB).filter Call.isDepositCharge).length = 4
      ∧ ((evolveCalls toyCollab 2 scenarioB).filter Call.isPush).length = 4) :=
  ⟨⟨((C3_space_charge_condition toyCollab DemoElement.drift 1 scenarioA 1).2.2.2.2.1
        ((C3_space_charge_condition toyCollab DemoElement.drift 1 scenarioA 1).2.2.2.2.2.2
          toyCollab_countPreserved)).1 (by decide),
     (C3_space_charge_condition toyCollab DemoElement.drift 1 scenarioA 1).2.2.2.2.2.1⟩,
   ⟨(((C3_space_charge_condition toyCollab DemoElement.drift 2 scenarioB 1000).2.2.2.2.1
        ((C3_space_charge_condition toyCollab DemoElement.drift 2 scenarioB 1000).2.2.2.2.2.2
          toyCollab_countPreserved)).2 (by decide)).1,
    (((C3_space_charge_condition toyCollab DemoElement.drift 2 scenarioB 1000).2.2.2.2.1
        ((C3_space_charge_condition toyCollab DemoElement.drift 2 scenarioB 1000).2.2.2.2.2.2
          toyCollab_countPreserved)).2 (by decide)).2.1,
    (((C3_space_charge_condition toyCollab DemoElement.drift 2 scenarioB 1000).2.2.2.2.1
        ((C3_space_charge_condition toyCollab DemoElement.drift 2 scenarioB 1000).2.2.2.2.2.2
          toyCollab_countPreserved)).2 (by decide)).2.2,
    (C3_space_charge_condition toyCollab DemoElement.drift 2 scenarioB 1000).2.2.2.2.2.1⟩⟩

/-- C4. One `evolve` makes exactly six diagnostic writes, for every lattice and every
`num_steps`: the three `initial` ones, in the fixed order and with the fixed
output types and paths, before all calls of the traversal, and the three `output`
ones after all of them; the traversal itself makes only transform, space-charge
and push calls.  The six paths are pairwise distinct.  The first write sees the
state `evolve` was entered with; when diagnostic writes do not change the
ensemble, all three initial writes see that state and all three final writes see
the state the traversal ended in, which is also the state `evolve` returns. -/
theorem C4_diagnostic_writes (c : Collab σ ε) (n : Int) (w : ImpactX σ ε) :
    evolveCalls c n w =
        [Call.DiagnosticOutput OutputType.PrintParticles "diags/initial_beam.txt",
         Call.DiagnosticOutput OutputType.PrintRefParticle "diags/initial_ref_particle.txt",
         Call.DiagnosticOutput OutputType.PrintNonlinearLensInvariants
           "diags/initial_nonlinear_lens_invariants.txt"]
        ++ (traversal c n w).log.map Prod.fst
        ++ [Call.DiagnosticOutput OutputType.PrintParticles "diags/output_beam.txt",
         Call.DiagnosticOutput OutputType.PrintRefParticle "diags/output_ref_particle.txt",
         Call.DiagnosticOutput OutputType.PrintNonlinearLensInvariants
           "diags/output_nonlinear_lens_invariants.txt"]
      ∧ ((traversal c n w).log.map Prod.fst).all Call.isPhysics = true
      ∧ ((evolveCalls c n w).filter Call.isDiagnostic).length = 6
      ∧ (evolveCalls c n w).filterMap Call.fileName =
        ["diags/initial_beam.txt", "diags/initial_ref_particle.txt",
         "diags/initial_nonlinear_lens_invariants.txt", "diags/output_beam.txt",
         "diags/output_ref_particle.txt", "diags/output_nonlinear_lens_invariants.txt"]
      ∧ ((evolveCalls c n w).filterMap Call.fileName).Nodup
      ∧ (evolveLog c n w).head? =
        some (Call.DiagnosticOutput OutputType.PrintParticles "diags/initial_beam.txt", w.state)
      ∧ ((∀ o p s, c.DiagnosticOutput o p s = s) →
          evolveLog c n w =
            [(Call.DiagnosticOutput OutputType.PrintParticles "diags/initial_beam.txt",
                w.state),
             (Call.DiagnosticOutput OutputType.PrintRefParticle
                "diags/initial_ref_particle.txt", w.state),
             (Call.DiagnosticOutput OutputType.PrintNonlinearLensInvariants
                "diags/initial_nonlinear_lens_invariants.txt", w.state)]
            ++ (traversal c n w).log
            ++ [(Call.DiagnosticOutput OutputType.PrintParticles "diags/output_beam.txt",
                (traversal c n w).state),
             (Call.DiagnosticOutput OutputType.PrintRefParticle
                "diags/output_ref_particle.txt", (traversal c n w).state),
             (Call.DiagnosticOutput OutputType.PrintNonlinearLensInvariants
                "diags/output_nonlinear_lens_invariants.txt", (traversal c n w).state)]
          ∧ (evolve c n w).state = (traversal c n w).state) := by
  have hall := specTraversal_all_physics c (specSchedule w.m_lattice n.toNat)
    (specInitialEnd c w.state)
  have hnd : ((specTraversal c (specSchedule w.m_lattice n.toNat) (specInitialEnd c w.state)).map
      Prod.fst).filter Call.isDiagnostic = [] := by
    rw [List.filter_eq_nil_iff]
    intro k hk
    have := List.all_eq_true.mp hall k hk
    cases k <;> simp_all [Call.isPhysics, Call.isTransform, Call.isCoupling, Call.isPush,
      Call.isResizeMesh, Call.isRedistribute, Call.isDepositCharge, Call.isDiagnostic]
  have hnf : ((specTraversal c (specSchedule w.m_lattice n.toNat) (specInitialEnd c w.state)).map
      Prod.fst).filterMap Call.fileName = [] := by
    rw [List.filterMap_eq_nil_iff]
    intro k hk
    have := List.all_eq_true.mp hall k hk
    cases k <;> simp_all [Call.isPhysics, Call.isTransform, Call.isCoupling, Call.isPush,
      Call.isResizeMesh, Call.isRedistribute, Call.isDepositCharge, Call.fileName]
  have hfiles : (evolveCalls c n w).filterMap Call.fileName =
      ["diags/initial_beam.txt", "diags/initial_ref_particle.txt",
       "diags/initial_nonlinear_lens_invariants.txt", "diags/output_beam.txt",
       "diags/output_ref_particle.txt", "diags/output_nonlinear_lens_invariants.txt"] := by
    rw [evolveCalls_eq]
    simp only [List.filterMap_append, hnf]
    simp [Call.fileName]
  refine ⟨?_, ?_, ?_, hfiles, ?_, ?_, ?_⟩
  · rw [evolveCalls_eq, traversal_log]
  · rw [traversal_log]; exact hall
  · rw [evolveCalls_eq]
    simp only [List.filter_append, hnd]
    simp [Call.isDiagnostic]
  · rw [hfiles]
    decide
  · rw [evolveLog_eq]
    simp [specInitial, specDiag]
  · intro hd
    constructor
    · rw [evolveLog_eq, traversal_log, traversal_state]
      simp [specInitial, specFinal, specDiag, hd]
    · rw [evolve_state_eq, traversal_state, specFinalEnd_of_pure c hd]

/-- C4 on a concrete run: lattice `[drift, lens]`, two sub-steps, 1000 particles. -/
theorem C4_diagnostic_writes_witness :
    evolveLog toyCollab 2 scenarioB =
        [(Call.DiagnosticOutput OutputType.PrintParticles "diags/initial_beam.txt",
            scenarioB.state),
         (Call.DiagnosticOutput OutputType.PrintRefParticle
            "diags/initial_ref_particle.txt", scenarioB.state),
         (Call.DiagnosticOutput OutputType.PrintNonlinearLensInvariants
            "diags/initial_nonlinear_lens_invariants.txt", scenarioB.state)]
        ++ (traversal toyCollab 2 scenarioB).log
        ++ [(Call.DiagnosticOutput OutputType.PrintParticles "diags/output_beam.txt",
            (traversal toyCollab 2 scenarioB).state),
         (Call.DiagnosticOutput OutputType.PrintRefParticle
            "diags/output_ref_particle.txt", (traversal toyCollab 2 scenarioB).state),
         (Call.DiagnosticOutput OutputType.PrintNonlinearLensInvariants
            "diags/output_nonlinear_lens_invariants.txt",
            (traversal toyCollab 2 scenarioB).state)]
      ∧ (evolve toyCollab 2 scenarioB).state = (traversal toyCollab 2 scenarioB).state :=
  (C4_diagnostic_writes toyCollab 2 scenarioB).2.2.2.2.2.2 (fun _ _ _ => rfl)

/-- C5. `evolve(0)` makes exactly the six diagnostic writes and no transform,
space-charge or push call, for every lattice and every ensemble.  When diagnostic
writes do not change the ensemble, the state after the call is the state before
it, and each of the six writes, final as well as initial, sees that same state. -/
theorem C5_evolve_zero_steps (c : Collab σ ε) (w : ImpactX σ ε) :
    evolveCalls c 0 w =
        [Call.DiagnosticOutput OutputType.PrintParticles "diags/initial_beam.txt",
         Call.DiagnosticOutput OutputType.PrintRefParticle "diags/initial_ref_particle.txt",
         Call.DiagnosticOutput OutputType.PrintNonlinearLensInvariants
           "diags/initial_nonlinear_lens_invariants.txt",
         Call.DiagnosticOutput OutputType.PrintParticles "diags/output_beam.txt",
         Call.DiagnosticOutput OutputType.PrintRefParticle "diags/output_ref_particle.txt",
         Call.DiagnosticOutput OutputType.PrintNonlinearLensInvariants
           "diags/output_nonlinear_lens_invariants.txt"]
      ∧ (evolveCalls c 0 w).filter Call.isPhysics = []
      ∧ (evolve c 0 w).m_lattice = w.m_lattice
      ∧ ((∀ o p s, c.DiagnosticOutput o p s = s) →
          (evolve c 0 w).state = w.state
          ∧ evolveLog c 0 w =
            [(Call.DiagnosticOutput OutputType.PrintParticles "diags/initial_beam.txt",
                w.state),
             (Call.DiagnosticOutput OutputType.PrintRefParticle
                "diags/initial_ref_particle.txt", w.state),
             (Call.DiagnosticOutput OutputType.PrintNonlinearLensInvariants
                "diags/initial_nonlinear_lens_invariants.txt", w.state),
             (Call.DiagnosticOutput OutputType.PrintParticles "diags/output_beam.txt",
                w.state),
             (Call.DiagnosticOutput OutputType.PrintRefParticle
                "diags/output_ref_particle.txt", w.state),
             (Call.DiagnosticOutput OutputType.PrintNonlinearLensInvariants
                "diags/output_nonlinear_lens_invariants.txt", w.state)]) := by
  have hcalls := evolveCalls_eq c 0 w
  simp only [Int.toNat_zero, specSchedule_zero, specTraversal, List.map_nil, List.append_nil,
    List.cons_append, List.nil_append] at hcalls
  refine ⟨hcalls, ?_, ?_, ?_⟩
  · rw [hcalls]
    simp [Call.isPhysics, Call.isTransform, Call.isCoupling, Call.isPush,
      Call.isResizeMesh, Call.isRedistribute, Call.isDepositCharge]
  · rw [evolve_eq]
  · intro hd
    constructor
    · rw [evolve_state_eq]
      simp [specSchedule_zero, specTraversalEnd, specFinalEnd_of_pure c hd,
        specInitialEnd_of_pure c hd]
    · rw [evolveLog_eq]
      simp [specSchedule_zero, specTraversalEnd, specTraversal, specInitial, specFinal,
        specDiag, hd,
        specInitialEnd_of_pure c hd]

/-- C5 on a concrete run: lattice `[drift, lens]`, 1000 particles, no sub-step. -/
theorem C5_evolve_zero_steps_witness :
    (evolve toyCollab 0 scenarioB).state = scenarioB.state
      ∧ evolveLog toyCollab 0 scenarioB =
        [(Call.DiagnosticOutput OutputType.PrintParticles "diags/initial_beam.txt",
            scenarioB.state),
         (Call.DiagnosticOutput OutputType.PrintRefParticle
            "diags/initial_ref_particle.txt", scenarioB.state),
         (Call.DiagnosticOutput OutputType.PrintNonlinearLensInvariants
            "diags/initial_nonlinear_lens_invariants.txt", scenarioB.state),
         (Call.DiagnosticOutput OutputType.PrintParticles "diags/output_beam.txt",
            scenarioB.state),
         (Call.DiagnosticOutput OutputType.PrintRefParticle
            "diags/output_ref_particle.txt", scenarioB.state),
         (Call.DiagnosticOutput OutputType.PrintNonlinearLensInvariants
            "diags/output_nonlinear_lens_invariants.txt", scenarioB.state)] :=
  (C5_evolve_zero_steps toyCollab scenarioB).2.2.2 (fun _ _ _ => rfl)

/-- C6. With the frame tag modelled as in `frameStep`, and the ensemble in
TRANSVERSE_TIME when `evolve` is called: for every lattice, `num_steps` and
collaborators (so for every particle count), replaying the calls of `evolve`
never meets a transform in the wrong frame, every transform is made in its source
frame, every ResizeMesh, Redistribute and DepositCharge in SPATIAL, every Push
and diagnostic write in TRANSVERSE_TIME, and the tag is TRANSVERSE_TIME at the
end. -/
theorem C6_frame_invariant (c : Collab σ ε) (n : Int) (w : ImpactX σ ε) :
    ∃ tagged : List (Call ε × Frame),
      frameTrace Frame.TRANSVERSE_TIME (evolveCalls c n w)
          = some (tagged, Frame.TRANSVERSE_TIME)
        ∧ tagged.map Prod.fst = evolveCalls c n w
        ∧ tagged.all frameOK = true := by
  obtain ⟨t, ht, ha⟩ :=
    frameTrace_schedule c (specSchedule w.m_lattice n.toNat) (specInitialEnd c w.state)
  have h1 : frameTrace Frame.TRANSVERSE_TIME
      ([Call.DiagnosticOutput OutputType.PrintParticles "diags/initial_beam.txt",
        Call.DiagnosticOutput OutputType.PrintRefParticle "diags/initial_ref_particle.txt",
        Call.DiagnosticOutput OutputType.PrintNonlinearLensInvariants
          "diags/initial_nonlinear_lens_invariants.txt"] : List (Call ε))
      = some (_, Frame.TRANSVERSE_TIME) := rfl
  have h3 : frameTrace Frame.TRANSVERSE_TIME
      ([Call.DiagnosticOutput OutputType.PrintParticles "diags/output_beam.txt",
        Call.DiagnosticOutput OutputType.PrintRefParticle "diags/output_ref_particle.txt",
        Call.DiagnosticOutput OutputType.PrintNonlinearLensInvariants
          "diags/output_nonlinear_lens_invariants.txt"] : List (Call ε))
      = some (_, Frame.TRANSVERSE_TIME) := rfl
  have h12 := frameTrace_append _ _ _ _ _ _ _ h1 ht
  have h123 := frameTrace_append _ _ _ _ _ _ _ h12 h3
  rw [← evolveCalls_eq c n w] at h123
  refine ⟨_, h123, frameTrace_calls _ _ _ _ h123, ?_⟩
  simp [List.all_append, ha, frameOK]

/-- C7, as stated, fails on the code: for a driver with no particle shape
configured, `evolve` does not stop before stepping; it makes its diagnostic
writes, the transforms and the push. -/
theorem C7_evolve_unset_shape_counterexample :
    scenarioC.state.1.algo_particle_shape = none
      ∧ scenarioC.state.1.m_particle_shape = none
      ∧ evolveCalls (withShape toyCollab) 1 scenarioC =
        [Call.DiagnosticOutput OutputType.PrintParticles "diags/initial_beam.txt",
         Call.DiagnosticOutput OutputType.PrintRefParticle "diags/initial_ref_particle.txt",
         Call.DiagnosticOutput OutputType.PrintNonlinearLensInvariants
           "diags/initial_nonlinear_lens_invariants.txt",
         Call.CoordinateTransformation Direction.T2Z,
         Call.CoordinateTransformation Direction.Z2T,
         Call.Push DemoElement.drift,
         Call.DiagnosticOutput OutputType.PrintParticles "diags/output_beam.txt",
         Call.DiagnosticOutput OutputType.PrintRefParticle "diags/output_ref_particle.txt",
         Call.DiagnosticOutput OutputType.PrintNonlinearLensInvariants
           "diags/output_nonlinear_lens_invariants.txt"] :=
  ⟨rfl, rfl, rfl⟩

/-- C7, amended.  When `SetParticleShape` reports an error in the current state (as
it does when no particle shape has been configured), it is `initGrids` that fails
with that error, after the `SetParticleShape` call alone: no grid construction and
no directory clean.  `evolve` makes no particle-shape check: it never calls
`SetParticleShape` or any other initialisation collaborator, and makes its six
diagnostic writes and its traversal calls all the same. -/
theorem C7_unset_shape_amended (c : Collab σ ε) (n : Int) (w : ImpactX σ ε) (msg : String)
    (h : c.SetParticleShape w.state = Except.error msg) :
    initGrids c w =
        Except.error (msg,
          { m_lattice := w.m_lattice, state := w.state,
            log := w.log ++ [(Call.SetParticleShape, w.state)] })
      ∧ (evolveCalls c n w).filter Call.isInit = []
      ∧ evolveCalls c n w =
        [Call.DiagnosticOutput OutputType.PrintParticles "diags/initial_beam.txt",
         Call.DiagnosticOutput OutputType.PrintRefParticle "diags/initial_ref_particle.txt",
         Call.DiagnosticOutput OutputType.PrintNonlinearLensInvariants
           "diags/initial_nonlinear_lens_invariants.txt"]
        ++ (traversal c n w).log.map Prod.fst
        ++ [Call.DiagnosticOutput OutputType.PrintParticles "diags/output_beam.txt",
         Call.DiagnosticOutput OutputType.PrintRefParticle "diags/output_ref_particle.txt",
         Call.DiagnosticOutput OutputType.PrintNonlinearLensInvariants
           "diags/output_nonlinear_lens_invariants.txt"] := by
  refine ⟨?_, evolveCalls_init c n w, ?_⟩
  · simp [initGrids, h]
  · rw [evolveCalls_eq, traversal_log]

/-- C7 amended, on scenario C: no particle shape configured. -/
theorem C7_unset_shape_amended_witness :
    initGrids (withShape toyCollab) scenarioC =
        Except.error ("particle_shape is not set",
          { m_lattice := scenarioC.m_lattice, state := scenarioC.state,
            log := scenarioC.log ++ [(Call.SetParticleShape, scenarioC.state)] })
      ∧ (evolveCalls (withShape toyCollab) 1 scenarioC).filter Call.isInit = []
      ∧ evolveCalls (withShape toyCollab) 1 scenarioC =
        [Call.DiagnosticOutput OutputType.PrintParticles "diags/initial_beam.txt",
         Call.DiagnosticOutput OutputType.PrintRefParticle "diags/initial_ref_particle.txt",
         Call.DiagnosticOutput OutputType.PrintNonlinearLensInvariants
           "diags/initial_nonlinear_lens_invariants.txt"]
        ++ (traversal (withShape toyCollab) 1 scenarioC).log.map Prod.fst
        ++ [Call.DiagnosticOutput OutputType.PrintParticles "diags/output_beam.txt",
         Call.DiagnosticOutput OutputType.PrintRefParticle "diags/output_ref_particle.txt",
         Call.DiagnosticOutput OutputType.PrintNonlinearLensInvariants
           "diags/output_nonlinear_lens_invariants.txt"] :=
  C7_unset_shape_amended (withShape toyCollab) 1 scenarioC "particle_shape is not set" rfl

/-- C8. With `SetParticleShape` as the specification describes it: on a driver whose
particle shape is configured and not yet set, `initGrids` succeeds, making its
three calls and fixing the shape; a second `initGrids` on the resulting driver
returns an error having made the `SetParticleShape` call alone; so does every
`initGrids` on any driver whose shape is already set, and it leaves the state as
it is; of `k + 1` calls in a row the first succeeds and the `k` later ones fail,
the calls made being the three of the first and one `SetParticleShape` per later
call; `evolve` leaves the shape as it is, so the shape stays set; and on a driver
with no shape configured `initGrids` returns an error in the same way, before
grid construction. -/
theorem C8_initGrids_failures (base : Collab σ ε) (w : ImpactX (ShapeConfig × σ) ε)
    (v : Int) (hcfg : w.state.1.algo_particle_shape = some v)
    (hfresh : w.state.1.m_particle_shape = none) :
    ∃ w1 : ImpactX (ShapeConfig × σ) ε,
      initGrids (withShape base) w = Except.ok w1
        ∧ w1.log = w.log ++
            [(Call.SetParticleShape, w.state),
             (Call.InitFromScratch, ({ w.state.1 with m_particle_shape := some v }, w.state.2)),
             (Call.UtilCreateCleanDirectory "diags" true,
               ({ w.state.1 with m_particle_shape := some v },
                 base.InitFromScratch w.state.2))]
        ∧ w1.state.1.m_particle_shape = some v
        ∧ initGrids (withShape base) w1 =
            Except.error ("particle shape was already set and cannot be changed",
              { m_lattice := w1.m_lattice, state := w1.state,
                log := w1.log ++ [(Call.SetParticleShape, w1.state)] })
        ∧ (∀ w2 : ImpactX (ShapeConfig × σ) ε, w2.state.1.m_particle_shape ≠ none →
            initGrids (withShape base) w2 =
              Except.error ("particle shape was already set and cannot be changed",
                { m_lattice := w2.m_lattice, state := w2.state,
                  log := w2.log ++ [(Call.SetParticleShape, w2.state)] }))
        ∧ (∀ k : Nat,
            (initGridsAgain (withShape base) (k + 1) w).1 = true :: List.replicate k false
            ∧ ((initGridsAgain (withShape base) (k + 1) w).2.log.drop w.log.length).map Prod.fst
              = [Call.SetParticleShape, Call.InitFromScratch,
                  Call.UtilCreateCleanDirectory "diags" true]
                ++ List.replicate k Call.SetParticleShape)
        ∧ (∀ (n : Int) (w2 : ImpactX (ShapeConfig × σ) ε),
            (evolve (withShape base) n w2).state.1 = w2.state.1)
        ∧ (∀ w0 : ImpactX (ShapeConfig × σ) ε,
            w0.state.1.algo_particle_shape = none → w0.state.1.m_particle_shape = none →
            initGrids (withShape base) w0 =
              Except.error ("particle_shape is not set",
                { m_lattice := w0.m_lattice, state := w0.state,
                  log := w0.log ++ [(Call.SetParticleShape, w0.state)] })) := by
  obtain ⟨L, ⟨⟨a, m⟩, s⟩, lg⟩ := w
  simp only at hcfg hfresh
  subst hcfg hfresh
  refine ⟨_, rfl, ?_, rfl, ?_, ?_, ?_, ?_, ?_⟩
  · simp [ImpactX.invoke, withShape]
  · exact initGrids_shape_set base _ (by simp [ImpactX.invoke, withShape])
  · intro w2 h2
    exact initGrids_shape_set base w2 h2
  · intro k
    have hok : initGrids (withShape base)
        { m_lattice := L, state := (({ algo_particle_shape := some v, m_particle_shape := none }
          : ShapeConfig), s), log := lg } = Except.ok _ := rfl
    simp only [initGridsAgain, hok]
    rw [initGridsAgain_shape_set base k _ (by simp [ImpactX.invoke, withShape])]
    simp [ImpactX.invoke, withShape]
  · intro n w2
    exact withShape_evolve_shape base n w2
  · intro w0 h1 h2
    obtain ⟨L0, ⟨⟨a0, m0⟩, s0⟩, lg0⟩ := w0
    simp only at h1 h2
    subst h1 h2
    rfl

/-- C8 on a concrete driver: the first `initGrids` succeeds, the second fails. -/
theorem C8_initGrids_failures_witness :
    ∃ w1 : ImpactX (ShapeConfig × ToyBeam) DemoElement,
      initGrids (withShape toyCollab) freshDriver = Except.ok w1
        ∧ w1.log.map Prod.fst =
            [Call.SetParticleShape, Call.InitFromScratch,
             Call.UtilCreateCleanDirectory "diags" true]
        ∧ initGrids (withShape toyCollab) w1 =
            Except.error ("particle shape was already set and cannot be changed",
              { m_lattice := w1.m_lattice, state := w1.state,
                log := w1.log ++ [(Call.SetParticleShape, w1.state)] }) := by
  obtain ⟨w1, h1, h2, _, h4, _⟩ :=
    C8_initGrids_failures toyCollab freshDriver 2 rfl rfl
  exact ⟨w1, h1, by rw [h2]; rfl, h4⟩

/-- C9. One `initGrids` call first calls `SetParticleShape`; when that returns, it
makes exactly two more calls, `InitFromScratch` and then the clean/create of the
`diags` directory, so three calls in this order, the shape fixed before the grids
are built and the directory clean made once; when `SetParticleShape` throws,
nothing further is called.  `evolve` never makes any of these three calls. -/
theorem C9_initGrids_actions (c : Collab σ ε) (n : Int) (w : ImpactX σ ε) :
    (match c.SetParticleShape w.state with
      | Except.ok s1 =>
        initGrids c w = Except.ok
          { m_lattice := w.m_lattice,
            state := c.UtilCreateCleanDirectory "diags" true (c.InitFromScratch s1),
            log := w.log ++
              [(Call.SetParticleShape, w.state), (Call.InitFromScratch, s1),
               (Call.UtilCreateCleanDirectory "diags" true, c.InitFromScratch s1)] }
      | Except.error msg =>
        initGrids c w = Except.error
          (msg, { m_lattice := w.m_lattice, state := w.state,
                  log := w.log ++ [(Call.SetParticleShape, w.state)] }))
      ∧ (evolveCalls c n w).filter Call.isInit = [] := by
  refine ⟨?_, evolveCalls_init c n w⟩
  cases h : c.SetParticleShape w.state with
  | error msg => simp [initGrids, h]
  | ok s1 => simp [initGrids, h, ImpactX.invoke]

/-- C10. `evolve` keeps no state of its own: a second call starts from the state
and log the first one left.  When diagnostic writes do not change the ensemble:
the transform, space-charge and push calls of two consecutive `evolve(n)` over a
lattice `L`, with the states they are made on, are those of one `evolve(n)` over
`L ++ L`, and the final states agree; in general the physics calls over
`L1 ++ L2` are those over `L1` followed by those over `L2` started from the state
the run over `L1` left.  Two calls make 12 diagnostic writes, one call makes 6. -/
theorem C10_evolve_resumes (c : Collab σ ε) (n : Int) (w : ImpactX σ ε) (L1 L2 : List ε)
    (hd : ∀ o p s, c.DiagnosticOutput o p s = s) :
    (evolve c n (evolve c n w)).log
        = w.log ++ evolveLog c n w ++ evolveLog c n (evolve c n w)
      ∧ (evolveLog c n w ++ evolveLog c n (evolve c n w)).filter (fun x => x.1.isPhysics)
        = (evolveLog c n { w with m_lattice := w.m_lattice ++ w.m_lattice }).filter
            (fun x => x.1.isPhysics)
      ∧ (evolve c n (evolve c n w)).state
        = (evolve c n { w with m_lattice := w.m_lattice ++ w.m_lattice }).state
      ∧ (evolveLog c n { w with m_lattice := L1 ++ L2 }).filter (fun x => x.1.isPhysics)
        = (evolveLog c n { w with m_lattice := L1 }).filter (fun x => x.1.isPhysics)
          ++ (evolveLog c n
                { w with m_lattice := L2
                         state := (evolve c n { w with m_lattice := L1 }).state }).filter
              (fun x => x.1.isPhysics)
      ∧ ((evolveLog c n w ++ evolveLog c n (evolve c n w)).filter
          (fun x => x.1.isDiagnostic)).length = 12
      ∧ ((evolveLog c n { w with m_lattice := w.m_lattice ++ w.m_lattice }).filter
          (fun x => x.1.isDiagnostic)).length = 6 := by
  have hlat : (evolve c n w).m_lattice = w.m_lattice := by rw [evolve_eq]
  refine ⟨?_, ?_, ?_, ?_, ?_, ?_⟩
  · rw [evolve_log_eq c n (evolve c n w), evolve_log_eq c n w]
  · simp only [List.filter_append, evolveLog_physics, hlat, evolve_state_eq,
      specInitialEnd_of_pure c hd, specFinalEnd_of_pure c hd, specSchedule_append,
      specTraversal_append]
  · simp only [evolve_state_eq, hlat, specInitialEnd_of_pure c hd, specFinalEnd_of_pure c hd,
      specSchedule_append, specTraversalEnd_append]
  · simp only [evolveLog_physics, evolve_state_eq, specInitialEnd_of_pure c hd,
      specFinalEnd_of_pure c hd, specSchedule_append, specTraversal_append]
  · simp only [List.filter_append, List.length_append, evolveLog_diagnostic_length]
  · exact evolveLog_diagnostic_length c n _

/-- C10 on a concrete run: two `evolve(2)` over `[drift, lens]` against one
`evolve(2)` over `[drift, lens, drift, lens]`, 1000 particles. -/
theorem C10_evolve_resumes_witness :
    (evolveLog toyCollab 2 scenarioB
          ++ evolveLog toyCollab 2 (evolve toyCollab 2 scenarioB)).filter
        (fun x => x.1.isPhysics)
        = (evolveLog toyCollab 2
            { scenarioB with m_lattice := scenarioB.m_lattice ++ scenarioB.m_lattice }).filter
            (fun x => x.1.isPhysics)
      ∧ (evolve toyCollab 2 (evolve toyCollab 2 scenarioB)).state
        = (evolve toyCollab 2
            { scenarioB with m_lattice := scenarioB.m_lattice ++ scenarioB.m_lattice }).state :=
  ⟨(C10_evolve_resumes toyCollab 2 scenarioB [DemoElement.drift] [DemoElement.lens]
      (fun _ _ _ => rfl)).2.1,
   (C10_evolve_resumes toyCollab 2 scenarioB [DemoElement.drift] [DemoElement.lens]
      (fun _ _ _ => rfl)).2.2.1⟩

end impactx
